import Mathlib

/-!
Shallow embedding of the Money-Face-Composer strategy compiler core
(logic validators, indicator registry, custom indicators) and proofs of
the specification's claims about it.

Python runtime values are modelled by `PyVal`; Python exceptions by
`PyExc`, with fallible code returning `Except PyExc _`.  Floats are
modelled by rationals: every numeric computation the claims exercise
(`(120-90)/120` and the like) is exact in binary floating point, so the
rational model agrees with the source on those inputs.
-/

namespace StrategyCompiler

/-- A Python runtime value as the compiler's validators and generators see
one: `None`, `bool`, `int`, `float`, `str`, `list`, or `dict` with string
keys (every dict the source builds or reads is keyed by strings). -/
inductive PyVal : Type where
  | none : PyVal
  | bool : Bool → PyVal
  | int : Int → PyVal
  | float : Rat → PyVal
  | str : String → PyVal
  | list : List PyVal → PyVal
  | dict : List (String × PyVal) → PyVal

/-- Python exceptions the embedded code can raise. -/
inductive PyExc : Type where
  | attributeError : PyExc
  | typeError : PyExc
  | valueError : PyExc
  | keyError : PyExc
  | unboundLocalError : PyExc
deriving DecidableEq

deriving instance DecidableEq for Except

/-- Python truthiness (`bool(v)`). -/
def pyTruthy : PyVal → Bool
  | .none => false
  | .bool b => b
  | .int n => n != 0
  | .float q => q != 0
  | .str s => s != ""
  | .list xs => !xs.isEmpty
  | .dict kvs => !kvs.isEmpty

/-- First binding of `key` in an association list (dicts hold each key once). -/
def dictFind : List (String × PyVal) → String → Option PyVal
  | [], _ => Option.none
  | (k, v) :: rest, key => if k = key then some v else dictFind rest key

/-- `d.get(key, default)` on a dict's entries. -/
def pyGetD (kvs : List (String × PyVal)) (key : String) (dflt : PyVal) : PyVal :=
  (dictFind kvs key).getD dflt

/-- `v.get(key, default)`: `AttributeError` when `v` is no dict. -/
def pyValGet (v : PyVal) (key : String) (dflt : PyVal) : Except PyExc PyVal :=
  match v with
  | .dict kvs => .ok (pyGetD kvs key dflt)
  | _ => .error .attributeError

/-- Whether `v` is a dict. -/
def PyVal.isDict : PyVal → Bool
  | .dict _ => true
  | _ => false

/-- Whether `v` is a str. -/
def PyVal.isStr : PyVal → Bool
  | .str _ => true
  | _ => false

/-- Whether `v` is a list. -/
def PyVal.isList : PyVal → Bool
  | .list _ => true
  | _ => false

/-- `isinstance(v, list) and all(isinstance(s, str) for s in v)`. -/
def isStrList : PyVal → Bool
  | .list xs => xs.all PyVal.isStr
  | _ => false

/-- Whether `v` is Python's `None`. -/
def PyVal.isNone : PyVal → Bool
  | .none => true
  | _ => false

/-- ASCII uppercase of one character (`str.upper()` on the compiler's
ASCII data). -/
def asciiUpper (c : Char) : Char :=
  if 97 ≤ c.toNat ∧ c.toNat ≤ 122 then Char.ofNat (c.toNat - 32) else c

/-- ASCII lowercase of one character. -/
def asciiLower (c : Char) : Char :=
  if 65 ≤ c.toNat ∧ c.toNat ≤ 90 then Char.ofNat (c.toNat + 32) else c

/-- `s.upper()` (ASCII; computable by the kernel, unlike `String.toUpper`
whose byte-position recursion does not reduce). -/
def strUpper (s : String) : String := ⟨s.data.map asciiUpper⟩

/-- `s.lower()` (ASCII). -/
def strLower (s : String) : String := ⟨s.data.map asciiLower⟩

/-- `s.strip()`: drop leading and trailing whitespace (space, tab, CR,
LF — the forms the compiler's data uses). -/
def strTrim (s : String) : String :=
  ⟨((s.data.dropWhile Char.isWhitespace).reverse.dropWhile
      Char.isWhitespace).reverse⟩

/-- `s.replace(a, b)` for one-character patterns (the source only replaces
`'-'` by `'_'`). -/
def strReplaceChar (s : String) (a b : Char) : String :=
  ⟨s.data.map (fun c => if c = a then b else c)⟩

/-- Whether `sub` occurs as a substring of `s` (`sub in s` on strings). -/
def strContains (s sub : String) : Bool :=
  (List.range (s.data.length + 1)).any
    (fun i => List.isPrefixOf sub.data (s.data.drop i))

/-- Code-point lexicographic strict order on character lists (Python's
string `<`). -/
def charListLt : List Char → List Char → Bool
  | [], [] => false
  | [], _ :: _ => true
  | _ :: _, [] => false
  | a :: as, b :: bs =>
      if a.toNat < b.toNat then true
      else if b.toNat < a.toNat then false
      else charListLt as bs

/-- `s <= t` on strings, by code points. -/
def strLeB (s t : String) : Bool := s == t || charListLt s.data t.data

/-- `isinstance(v, str) and v.strip()`: a string that is nonempty after
stripping whitespace. -/
def isNonBlankStr : PyVal → Bool
  | .str s => !(strTrim s == "")
  | _ => false

/-- Python `v == s` for a string literal `s`: only a `str` can compare equal. -/
def pyEqStr (v : PyVal) (s : String) : Bool :=
  match v with
  | .str t => t = s
  | _ => false

/-- Python `key in v` for a string `key`: dict-key membership, list-element
equality, substring test on a string; `TypeError` otherwise. -/
def pyContains (v : PyVal) (key : String) : Except PyExc Bool :=
  match v with
  | .dict kvs => .ok (kvs.any (fun kv => kv.1 = key))
  | .list xs => .ok (xs.any (fun x => pyEqStr x key))
  | .str s => .ok (strContains s key)
  | _ => .error .typeError

/-- `v[key]` for a string key: dict lookup (`KeyError` when absent),
`TypeError` on any other receiver. -/
def pyIndexStr (v : PyVal) (key : String) : Except PyExc PyVal :=
  match v with
  | .dict kvs =>
      match dictFind kvs key with
      | some x => .ok x
      | Option.none => .error .keyError
  | _ => .error .typeError

/-- Python `str(v)`.  `int`, `bool`, `None`, `str` and integral floats are
rendered exactly as CPython renders them; the rendering of non-integral
floats, lists and dicts is approximate (no claim evaluates `str()` on
those shapes). -/
def pyStr : PyVal → String
  | .none => "None"
  | .bool true => "True"
  | .bool false => "False"
  | .int n => toString n
  | .float q => if q.den = 1 then toString q.num ++ ".0" else toString q
  | .str s => s
  | .list _ => "[...]"
  | .dict _ => "\x7b...\x7d"

/-- `_is_number` (logic_validator.py line 371): an `int` or `float`, with
`bool` excluded explicitly. -/
def isNumericLiteral : PyVal → Bool
  | .int _ => true
  | .float _ => true
  | _ => false

/-- Split a character list at a separator (`str.split(sep)` semantics). -/
def splitChar (sep : Char) : List Char → List (List Char)
  | [] => [[]]
  | c :: rest =>
      if c = sep then [] :: splitChar sep rest
      else
        match splitChar sep rest with
        | [] => [[c]]
        | g :: gs => (c :: g) :: gs

/-- Decimal value of a digit list. -/
def digitsVal (cs : List Char) : Nat :=
  cs.foldl (fun acc c => acc * 10 + (c.toNat - 48)) 0

/-- Python `float(str)` on the decimal forms the compiler's data uses:
optional sign, digits with at most one point.  Exponent, infinity and
digit-grouping forms are not modelled (no claim exercises them). -/
def parseDecimal? (s : String) : Option Rat :=
  let t := (strTrim s).data
  let (sign, body) :=
    match t with
    | '-' :: rest => ((-1 : Rat), rest)
    | '+' :: rest => ((1 : Rat), rest)
    | _ => ((1 : Rat), t)
  match splitChar '.' body with
  | [ip] =>
      if ip ≠ [] ∧ ip.all Char.isDigit then some (sign * digitsVal ip)
      else Option.none
  | [ip, fp] =>
      if (ip ≠ [] ∨ fp ≠ []) ∧ ip.all Char.isDigit ∧ fp.all Char.isDigit then
        some (sign * digitsVal (ip ++ fp) / ((10 : Rat) ^ fp.length))
      else Option.none
  | _ => Option.none

/-- Python `float(v)`: numbers and bools convert, a string is parsed
(`ValueError` when it does not parse), everything else is a `TypeError`. -/
def pyFloat : PyVal → Except PyExc Rat
  | .bool b => .ok (if b then 1 else 0)
  | .int n => .ok (n : Rat)
  | .float q => .ok q
  | .str s =>
      match parseDecimal? s with
      | some q => .ok q
      | Option.none => .error .valueError
  | _ => .error .typeError

/-- Insert into an ascending list of strings (used to model `sorted`). -/
def insertSorted (s : String) : List String → List String
  | [] => [s]
  | x :: xs => if strLeB s x then s :: x :: xs else x :: insertSorted s xs

/-- Python `sorted` on a list of strings (ascending lexicographic order). -/
def sortStrings (l : List String) : List String := l.foldr insertSorted []

/-- Add a string to a set modelled as a duplicate-free list.  Python sets
iterate in an unspecified order; every use in the source is
order-insensitive (membership, emptiness, or `sorted(...)`). -/
def insertSet (l : List String) (s : String) : List String :=
  if s ∈ l then l else l ++ [s]

/-- Union of a string set with a list of new members. -/
def unionSet (l : List String) (m : List String) : List String :=
  m.foldl insertSet l

/-- `', '.join(l)`. -/
def commaJoin (l : List String) : String := String.intercalate ", " l

/-! ## Custom indicator units (max_drawdown_indicator.py, drawdown_indicator.py) -/

/-- State of `MaxDrawdownIndicator`: lookback period, rolling price
window, readiness flag. -/
structure MaxDrawdownIndicator where
  period : Int
  price_history : List Rat
  is_ready : Bool

/-- `MaxDrawdownIndicator(period)` (default 252). -/
def MaxDrawdownIndicator.init (period : Int := 252) : MaxDrawdownIndicator :=
  ⟨period, [], false⟩

/-- `MaxDrawdownIndicator.update`: append the price, evict the oldest
observation once the window exceeds `period`, become ready at two points. -/
def MaxDrawdownIndicator.update (ind : MaxDrawdownIndicator) (price : Rat) :
    MaxDrawdownIndicator :=
  let hist0 := ind.price_history ++ [price]
  let hist := if (hist0.length : Int) > ind.period then hist0.tail else hist0
  { ind with
    price_history := hist
    is_ready := ind.is_ready || decide (2 ≤ hist.length) }

/-- Python's binary `max(a, b)`: the second argument only when strictly
greater. -/
def pyMax2 (a b : Rat) : Rat := if b > a then b else a

/-- The left-to-right scan of `MaxDrawdownIndicator.value`: track the
running peak, and the maximum of `(peak - price)/peak` (0 when the peak is
not positive) over prices not above the peak. -/
def maxDrawdownScan (peak acc : Rat) : List Rat → Rat
  | [] => acc
  | price :: rest =>
      if price > peak then maxDrawdownScan price acc rest
      else maxDrawdownScan peak
        (pyMax2 acc (if peak > 0 then (peak - price) / peak else 0)) rest

/-- `MaxDrawdownIndicator.value`. -/
def MaxDrawdownIndicator.value (ind : MaxDrawdownIndicator) : Rat :=
  if !ind.is_ready || ind.price_history.length < 2 then 0
  else
    match ind.price_history with
    | [] => 0
    | peak0 :: rest => maxDrawdownScan peak0 0 rest

/-- Feed a sequence of prices through `update`. -/
def MaxDrawdownIndicator.runUpdates (ind : MaxDrawdownIndicator) :
    List Rat → MaxDrawdownIndicator
  | [] => ind
  | p :: ps => (ind.update p).runUpdates ps

/-- State of `DrawdownIndicator` (same window discipline). -/
structure DrawdownIndicator where
  period : Int
  price_history : List Rat
  is_ready : Bool

/-- `DrawdownIndicator(period)` (default 252). -/
def DrawdownIndicator.init (period : Int := 252) : DrawdownIndicator :=
  ⟨period, [], false⟩

/-- `DrawdownIndicator.update` (identical discipline to max-drawdown). -/
def DrawdownIndicator.update (ind : DrawdownIndicator) (price : Rat) :
    DrawdownIndicator :=
  let hist0 := ind.price_history ++ [price]
  let hist := if (hist0.length : Int) > ind.period then hist0.tail else hist0
  { ind with
    price_history := hist
    is_ready := ind.is_ready || decide (2 ≤ hist.length) }

/-- Python `max` over a nonempty list, folded from a first element. -/
def pyMax (m : Rat) : List Rat → Rat
  | [] => m
  | x :: xs => pyMax (pyMax2 m x) xs

/-- `DrawdownIndicator.value`: `(max(window) - last(window)) / max(window)`
guarded by readiness and a positive peak. -/
def DrawdownIndicator.value (ind : DrawdownIndicator) : Rat :=
  if !ind.is_ready || ind.price_history.length < 2 then 0
  else
    match ind.price_history with
    | [] => 0
    | h :: t =>
        let peak := pyMax h t
        let current := (h :: t).getLast (List.cons_ne_nil h t)
        if peak > 0 then (peak - current) / peak else 0

/-- Feed a sequence of prices through `update`. -/
def DrawdownIndicator.runUpdates (ind : DrawdownIndicator) :
    List Rat → DrawdownIndicator
  | [] => ind
  | p :: ps => (ind.update p).runUpdates ps

/-! ## Indicator registry (generators/indicator_generator.py) -/

namespace IndicatorGenerator

/-- `IndicatorGenerator.IMPLEMENTED_INDICATORS`. -/
def IMPLEMENTED_INDICATORS : List String :=
  ["rsi", "current-price", "cumulative-return", "moving-average-price",
   "exponential-moving-average-price", "moving-average-return",
   "standard-deviation-price", "standard-deviation-return", "max-drawdown",
   "volatility", "returns", "drawdown", "month", "day-of-week",
   "day-of-month", "day-of-year"]

/-- `IndicatorGenerator.CUSTOM_INDICATORS`. -/
def CUSTOM_INDICATORS : List String :=
  ["max-drawdown", "drawdown", "moving-average-return"]

end IndicatorGenerator

/-- One stored registration: `{"name": ..., "symbol": ..., "args": ...}` as
`_process_indicator` stores it (name lowercased, symbol uppercased, args as
given). -/
structure IndicatorConfig where
  name : String
  symbol : String
  args : PyVal

/-- The generator's mutable state: the insertion-ordered
`indicators_used` map (canonical key → stored config) and the
`custom_methods_needed` set. -/
structure IndicatorGenerator where
  indicators_used : List (String × IndicatorConfig)
  custom_methods_needed : List String

namespace IndicatorGenerator

/-- A fresh generator (`__init__` / `reset_variables`). -/
def empty : IndicatorGenerator := ⟨[], []⟩

/-- `indicators_used[key] = value`: replace in place when the key exists
(CPython dict assignment keeps the insertion position), append otherwise. -/
def insertAssoc (m : List (String × IndicatorConfig)) (k : String)
    (v : IndicatorConfig) : List (String × IndicatorConfig) :=
  match m with
  | [] => [(k, v)]
  | (k', v') :: rest =>
      if k' = k then (k, v) :: rest else (k', v') :: insertAssoc rest k v

/-- First stored config under `k`. -/
def findConfig (m : List (String × IndicatorConfig)) (k : String) :
    Option IndicatorConfig :=
  match m with
  | [] => Option.none
  | (k', v) :: rest => if k' = k then some v else findConfig rest k

/-- `_create_indicator_key`: `name`, then `SYMBOL` when the symbol is
truthy (`.upper()` raises on a truthy non-string), then in order the
significant args `period`, `s{smoothing}`, and `fast`/`slow` when both are
present. -/
def _create_indicator_key (name : String) (symbol : PyVal) (args : PyVal) :
    Except PyExc String := do
  let base ←
    if pyTruthy symbol then
      match symbol with
      | .str s => pure [name, strUpper s]
      | _ => Except.error PyExc.attributeError
    else pure [name]
  let withPeriod ←
    if (← pyContains args "period") then do
      let p ← pyIndexStr args "period"
      pure (base ++ [pyStr p])
    else pure base
  let withSmoothing ←
    if (← pyContains args "smoothing") then do
      let s ← pyIndexStr args "smoothing"
      pure (withPeriod ++ ["s" ++ pyStr s])
    else pure withPeriod
  let withFastSlow ←
    if (← pyContains args "fast") && (← pyContains args "slow") then do
      let f ← pyIndexStr args "fast"
      let s ← pyIndexStr args "slow"
      pure (withSmoothing ++ [pyStr f, pyStr s])
    else pure withSmoothing
  return String.intercalate "_" withFastSlow

/-- Add `name` to `custom_methods_needed` when it is a custom indicator
(`_process_indicator`, lines 57-59). -/
def addCustom (g : IndicatorGenerator) (name : String) : IndicatorGenerator :=
  if name ∈ CUSTOM_INDICATORS then
    { g with custom_methods_needed := insertSet g.custom_methods_needed name }
  else g

/-- `_process_indicator`: skip unimplemented names, build the canonical
key, store the config under it when the symbol is not `None`
(`symbol.upper()` raises on a non-string), and track custom methods. -/
def _process_indicator (g : IndicatorGenerator) (config : PyVal) :
    Except PyExc IndicatorGenerator :=
  match config with
  | .dict kvs =>
      let name := strLower (pyStr (pyGetD kvs "name" (.str "unknown")))
      let symbol := pyGetD kvs "symbol" .none
      let args := pyGetD kvs "args" (.dict [])
      if name ∈ IMPLEMENTED_INDICATORS then
        match _create_indicator_key name symbol args with
        | .error e => .error e
        | .ok key =>
            match symbol with
            | .none => .ok (addCustom g name)
            | .str s =>
                .ok (addCustom
                  { g with indicators_used :=
                      insertAssoc g.indicators_used key ⟨name, strUpper s, args⟩ }
                  name)
            | _ => .error .attributeError
      else .ok g
  | _ => .error .attributeError

/-- `_generate_indicator_initialization`: the one initialization line for a
stored config, `none` for time-based indicators and unmatched names. -/
def _generate_indicator_initialization (config : IndicatorConfig) :
    Except PyExc (Option String) := do
  let name := config.name
  let symbol := config.symbol
  let args := config.args
  let clean_symbol := strReplaceChar (strLower symbol) '-' '_'
  let clean_name := strReplaceChar (strLower name) '-' '_'
  if name = "current-price" ∨ name = "current_price" then
    return some ("self." ++ clean_symbol ++ "_" ++ clean_name ++
      " = self.identity('" ++ symbol ++ "')")
  else if name ∈ ["month", "day-of-week", "day-of-month", "day-of-year"] then
    return Option.none
  else if name = "max-drawdown" then do
    let period ← pyValGet args "period" (.int 252)
    return some ("self." ++ clean_symbol ++ "_max_drawdown_" ++ pyStr period ++
      " = MaxDrawdownIndicator(" ++ pyStr period ++ ")")
  else if name = "drawdown" then do
    let period ← pyValGet args "period" (.int 252)
    return some ("self." ++ clean_symbol ++ "_drawdown_" ++ pyStr period ++
      " = DrawdownIndicator(" ++ pyStr period ++ ")")
  else if name = "moving-average-return" then do
    let period ← pyValGet args "period" (.int 20)
    return some ("self." ++ clean_symbol ++ "_moving_avg_return_" ++ pyStr period ++
      " = MovingAvgReturnIndicator(" ++ pyStr period ++ ")")
  else if name = "moving-average-price" then do
    let period ← pyValGet args "period" (.int 20)
    return some ("self." ++ clean_symbol ++ "_sma_" ++ pyStr period ++
      " = self.sma('" ++ symbol ++ "', " ++ pyStr period ++ ")")
  else if name = "exponential-moving-average-price" then do
    let period ← pyValGet args "period" (.int 20)
    return some ("self." ++ clean_symbol ++ "_ema_" ++ pyStr period ++
      " = self.ema('" ++ symbol ++ "', " ++ pyStr period ++ ")")
  else if name = "rsi" then do
    let period ← pyValGet args "period" (.int 14)
    return some ("self." ++ clean_symbol ++ "_rsi_" ++ pyStr period ++
      " = self.rsi('" ++ symbol ++ "', " ++ pyStr period ++ ")")
  else if name = "standard-deviation-price" then do
    let period ← pyValGet args "period" (.int 30)
    return some ("self." ++ clean_symbol ++ "_std_" ++ pyStr period ++
      " = self.std('" ++ symbol ++ "', " ++ pyStr period ++ ")")
  else if name = "volatility" then do
    let period ← pyValGet args "period" (.int 30)
    return some ("self." ++ clean_symbol ++ "_std_" ++ pyStr period ++
      " = self.std('" ++ symbol ++ "', " ++ pyStr period ++ ")")
  else if name = "cumulative-return" ∨ name = "returns" then do
    let period ← pyValGet args "period" (.int 1)
    return some ("self." ++ clean_symbol ++ "_roc_" ++ pyStr period ++
      " = self.roc('" ++ symbol ++ "', " ++ pyStr period ++ ")")
  else if name = "standard-deviation-return" then do
    let period ← pyValGet args "period" (.int 30)
    return some ("self." ++ clean_symbol ++ "_std_dev_return_" ++ pyStr period ++
      " = IndicatorExtensions.of(StandardDeviation(" ++ pyStr period ++
      "), self.roc('" ++ symbol ++ "', 1))")
  else
    return Option.none

/-- `generate_initialization_code`: a placeholder comment when nothing is
registered, otherwise the warm-up header followed by one line per stored
indicator that has one. -/
def generate_initialization_code (g : IndicatorGenerator) :
    Except PyExc String := do
  if g.indicators_used.isEmpty then
    return "        # No indicators needed"
  let header :=
    ["        # Initialize indicators with automatic warm-up support",
     "        self.settings.automatic_indicator_warm_up = True", ""]
  let lines ← g.indicators_used.foldlM
    (fun acc kv => do
      match (← _generate_indicator_initialization kv.2) with
      | some line => pure (acc ++ ["        " ++ line])
      | Option.none => pure acc)
    header
  return String.intercalate "\n" lines

/-- `get_indicator_value_code`: register the config (lazily), then return
the access expression for its current value. -/
def get_indicator_value_code (g : IndicatorGenerator) (config : PyVal) :
    Except PyExc (IndicatorGenerator × String) := do
  let g ← _process_indicator g config
  match config with
  | .dict kvs =>
      let indicator_name := pyGetD kvs "name" (.str "")
      let symbol := pyGetD kvs "symbol" (.str "")
      let args := pyGetD kvs "args" (.dict [])
      if pyEqStr indicator_name "month" then
        return (g, "self.time.month")
      else if pyEqStr indicator_name "day-of-week" then
        return (g, "self.time.weekday()")
      else if pyEqStr indicator_name "day-of-month" then
        return (g, "self.time.day")
      else if pyEqStr indicator_name "day-of-year" then
        return (g, "self.time.timetuple().tm_yday")
      else if pyEqStr indicator_name "current-price" then
        match symbol with
        | .str s =>
            return (g, "self.securities['" ++ strUpper s ++ "'].price")
        | _ => Except.error PyExc.attributeError
      else if pyEqStr indicator_name "max-drawdown" then
        match symbol with
        | .str s => do
            let clean_symbol := strReplaceChar (strLower s) '-' '_'
            let period ← pyValGet args "period" (.int 252)
            return (g, "(self." ++ clean_symbol ++ "_max_drawdown_" ++
              pyStr period ++ ".current.value)")
        | _ => Except.error PyExc.attributeError
      else if pyEqStr indicator_name "drawdown" then
        match symbol with
        | .str s => do
            let clean_symbol := strReplaceChar (strLower s) '-' '_'
            let period ← pyValGet args "period" (.int 252)
            return (g, "(self." ++ clean_symbol ++ "_drawdown_" ++
              pyStr period ++ ".current.value)")
        | _ => Except.error PyExc.attributeError
      else if pyEqStr indicator_name "moving-average-return" then
        match symbol with
        | .str s => do
            let clean_symbol := strReplaceChar (strLower s) '-' '_'
            let period ← pyValGet args "period" (.int 20)
            return (g, "(self." ++ clean_symbol ++ "_moving_avg_return_" ++
              pyStr period ++ ".current.value)")
        | _ => Except.error PyExc.attributeError
      else
        match symbol, indicator_name with
        | .str s, .str n => do
            let clean_symbol := strReplaceChar (strLower s) '-' '_'
            let clean_name := strReplaceChar (strLower n) '-' '_'
            if (← pyContains args "period") then do
              let p ← pyIndexStr args "period"
              let suffix :=
                if n = "moving-average-price" then "_sma_"
                else if n = "exponential-moving-average-price" then "_ema_"
                else if n = "rsi" then "_rsi_"
                else if n = "standard-deviation-price" then "_std_"
                else if n = "volatility" then "_std_"
                else if n = "cumulative-return" ∨ n = "returns" then "_roc_"
                else if n = "standard-deviation-return" then "_std_dev_return_"
                else "_" ++ clean_name ++ "_"
              return (g, "(self." ++ clean_symbol ++ suffix ++ pyStr p ++
                ".current.value)")
            else
              return (g, "(self." ++ clean_symbol ++ "_" ++ clean_name ++
                ".current.value)")
        | _, _ => Except.error PyExc.attributeError
  | _ => Except.error PyExc.attributeError

end IndicatorGenerator

/-! ## Logic validator (validators/logic_validator.py) -/

namespace LogicValidator

/-- Module-level `allowed_metrics` (logic_validator.py lines 8-30). -/
def allowed_metrics : List String :=
  ["current-price", "sma", "ema", "rsi", "cumulative-return",
   "moving-avg-price", "moving-avg-return", "std-dev-price", "std-dev-return",
   "max-drawdown", "volatility", "returns", "drawdown", "vix", "month",
   "day-of-week", "day-of-month", "day-of-year", "moving-average-price",
   "exponential-moving-average-price", "standard-deviation-price"]

/-- Module-level `allowed_symbols`. -/
def allowed_symbols : List String := ["TQQQ", "SQQQ", "BSV", "SPY"]

/-- `_SCHEMA_NODE_TYPES` (membership-only set). -/
def _SCHEMA_NODE_TYPES : List String :=
  ["group", "condition", "filter", "order", "exit", "expression", "weight"]

/-- `METRICS_REQUIRE_PERIOD` (membership-only set). -/
def METRICS_REQUIRE_PERIOD : List String :=
  ["sma", "ema", "rsi", "moving-avg-price", "moving-avg-return",
   "std-dev-price", "std-dev-return", "volatility", "returns", "drawdown"]

/-- `_CONDITION_OPS` (membership-only set). -/
def _CONDITION_OPS : List String :=
  ["gt", "gte", "lt", "lte", "eq", "neq", "crosses_above", "crosses_below"]

/-- `str(node.get("id"))` as the f-string messages interpolate it. -/
def nodeIdStr (kvs : List (String × PyVal)) : String :=
  pyStr (pyGetD kvs "id" .none)

/-- `node.get("weights") or {}` (validate_order_node line 129). -/
def orderWeightsVal (kvs : List (String × PyVal)) : PyVal :=
  let w := pyGetD kvs "weights" .none
  if pyTruthy w then w else .dict []

/-- `{s.upper() for s in universe}` (line 150): iterating a list requires
every element to answer `.upper()` (`AttributeError` otherwise); a string
iterates its characters, a dict its keys; a number is not iterable. -/
def upperIter : PyVal → Except PyExc (List String)
  | .list xs =>
      xs.mapM (fun x =>
        match x with
        | .str s => .ok (strUpper s)
        | _ => .error .attributeError)
  | .str s => .ok (s.toList.map (fun c => strUpper (String.singleton c)))
  | .dict kvs => .ok (kvs.map (fun kv => strUpper kv.1))
  | _ => .error .typeError

/-- The referenced-symbol set of an order node (lines 134-150): uppercased
`weights` keys, then `str(symbol_filter).upper()` when truthy, then the
uppercased `universe` members when truthy. -/
def orderSymbols (kvs : List (String × PyVal)) (wkvs : List (String × PyVal)) :
    Except PyExc (List String) := do
  let s0 := if !wkvs.isEmpty then unionSet [] (wkvs.map (fun kv => strUpper kv.1)) else []
  let sf := pyGetD kvs "symbol_filter" .none
  let s1 := if pyTruthy sf then insertSet s0 (strUpper (pyStr sf)) else s0
  let uni := pyGetD kvs "universe" .none
  if pyTruthy uni then do
    let ups ← upperIter uni
    pure (unionSet s1 ups)
  else pure s1

/-- `{k.upper() for k in weights.keys()}` (line 166). -/
def weightKeysUpper (wkvs : List (String × PyVal)) : List String :=
  wkvs.map (fun kv => strUpper kv.1)

/-- `missing_weights` (line 166): referenced symbols with no weight entry. -/
def orderMissingWeights (symbols : List String)
    (wkvs : List (String × PyVal)) : List String :=
  symbols.filter (fun sym => sym ∉ weightKeysUpper wkvs)

/-- The `Missing weight(s) for:` error (line 168), naming the missing
symbols sorted and comma-joined. -/
def missingWeightsMsg (nid : String) (missing : List String) : String :=
  "For order '" ++ nid ++ "', Missing weight(s) for: " ++
    commaJoin (sortStrings missing)

/-- `isinstance(v, (int, float))` — in Python a `bool` is an `int`. -/
def pyIsIntOrFloat : PyVal → Bool
  | .int _ => true
  | .float _ => true
  | .bool _ => true
  | _ => false

/-- The weight-coercion loop (lines 172-190).  `w` is a plain local of the
Python function: a failed `float(v)` is caught and reported, but the
`w < 0` test that follows then reads the *previous* iteration's `w` — or
raises `UnboundLocalError` when no weight converted before. -/
def weightsLoop (nid : String) (symbols : List String) :
    Option Rat → List (String × PyVal) → Except PyExc (List String)
  | _, [] => .ok []
  | wOpt, (k, v) :: rest => do
      let sym := strUpper k
      let e1 :=
        if sym ∉ symbols then
          ["For order '" ++ nid ++
           "', Unexpected weight for symbol not referenced by node: " ++ sym]
        else []
      let numMsg := "For order '" ++ nid ++ "', Weight for " ++ sym ++
        " must be a number"
      let geMsg := "For order '" ++ nid ++ "', Weight for " ++ sym ++
        " must be >= 0"
      match v with
      | .list _ => do
          let restE ← weightsLoop nid symbols wOpt rest
          pure (e1 ++ [numMsg] ++ restE)
      | .dict _ => do
          let restE ← weightsLoop nid symbols wOpt rest
          pure (e1 ++ [numMsg] ++ restE)
      | .bool _ => do
          let restE ← weightsLoop nid symbols wOpt rest
          pure (e1 ++ [numMsg] ++ restE)
      | _ =>
          match pyFloat v with
          | .ok w => do
              let e2 := if w < 0 then [geMsg] else []
              let restE ← weightsLoop nid symbols (some w) rest
              pure (e1 ++ e2 ++ restE)
          | .error _ =>
              match wOpt with
              | Option.none => .error .unboundLocalError
              | some w => do
                  let e2 := if w < 0 then [geMsg] else []
                  let restE ← weightsLoop nid symbols (some w) rest
                  pure (e1 ++ [numMsg] ++ e2 ++ restE)

/-- `LogicValidator.validate_order_node`.  Returns `(is_valid, errors)`;
an `.error` outcome is a Python exception escaping the function. -/
def validate_order_node (node : PyVal) (allowed_tickers : List String) :
    Except PyExc (Bool × List String) :=
  match node with
  | .dict kvs =>
      if ¬ pyEqStr (pyGetD kvs "type" .none) "order" then
        .ok (false, ["For order '{node_id}', node.type must be 'order'"])
      else
        let nid := nodeIdStr kvs
        let id_string := pyGetD kvs "id" .none
        let e_id :=
          if pyTruthy id_string ∧ ¬ id_string.isStr then
            ["order.id must be a string when provided"]
          else []
        let side := pyGetD kvs "side" .none
        let (sideStr, e_side1) :=
          match side with
          | .str s => (s, ([] : List String))
          | _ => ("", ["For order '{node_id}', order.side must be a string"])
        let e_side2 :=
          if sideStr ∉ ["long", "short"] then
            ["For order '" ++ nid ++ "', order.side must be 'long' or 'short'"]
          else []
        let size_type := pyGetD kvs "size_type" (.str "percent_equity")
        let e_st :=
          if ¬ (["percent_equity", "fixed_qty", "fixed_value", "risk_based"].any
                  (pyEqStr size_type)) then
            ["For order '" ++ nid ++
             "', order.size_type must be one of: percent_equity, fixed_qty, fixed_value, risk_based"]
          else []
        let allocation := pyGetD kvs "allocation" (.str "equal")
        let (allocStr, e_al1) :=
          match allocation with
          | .str s => (s, ([] : List String))
          | _ => ("", ["For order '{node_id}', order.allocation must be a string"])
        let e_al2 :=
          if allocStr ∉ ["equal", "weighted", "custom"] then
            ["For order '" ++ nid ++
             "', order.allocation must be one of: equal, weighted, custom"]
          else []
        let hasSize := kvs.any (fun kv => kv.1 = "size")
        let sizeVal := pyGetD kvs "size" .none
        let e_size :=
          if hasSize ∧ ¬ pyIsIntOrFloat sizeVal then
            ["For order '{node_id}', order.size must be a number when provided"]
          else if hasSize ∧ (pyFloat sizeVal).toOption.getD 0 < 0 then
            ["For order '{node_id}', order.size must be >= 0"]
          else []
        match orderWeightsVal kvs with
        | .dict wkvs =>
            (do
              let symbols ← orderSymbols kvs wkvs
              let uni := pyGetD kvs "universe" .none
              let e_u :=
                if pyTruthy uni ∧ ¬ isStrList uni then
                  ["For order '{node_id}', order.universe must be an array of strings when provided"]
                else []
              let e_nosym :=
                if symbols.isEmpty then
                  ["For order '{node_id}', No symbols found: provide at least one via weights, symbol_filter, or universe"]
                else []
              let allowed := allowed_tickers.map strUpper
              let invalid := sortStrings (symbols.filter (fun s => s ∉ allowed))
              let e_inv :=
                if ¬ invalid.isEmpty then
                  ["For order '" ++ nid ++ "', Symbols not allowed: " ++
                   commaJoin invalid]
                else []
              let missing := orderMissingWeights symbols wkvs
              let e_miss :=
                if ¬ missing.isEmpty then [missingWeightsMsg nid missing] else []
              let loopE ← weightsLoop nid symbols Option.none wkvs
              let errs := e_id ++ e_side1 ++ e_side2 ++ e_st ++ e_al1 ++ e_al2 ++
                e_size ++ e_u ++ e_nosym ++ e_inv ++ e_miss ++ loopE
              pure (errs.isEmpty, errs))
        | _ =>
            -- `weights` truthy but no dict: the error is recorded, and the
            -- very next statement, `weights.keys()`, raises (line 138).
            .error .attributeError
  | _ => .ok (false, ["order node must be a dict"])

/-- Python `len(v)`: `TypeError` for numbers, bools and `None`. -/
def pyLen : PyVal → Except PyExc Nat
  | .list xs => .ok xs.length
  | .dict kvs => .ok kvs.length
  | .str s => .ok s.length
  | _ => .error .typeError

/-- Iterating a Python value: a list yields its elements, a dict its keys,
a string its characters; numbers are not iterable. -/
def pyIterVals : PyVal → Except PyExc (List PyVal)
  | .list xs => .ok xs
  | .dict kvs => .ok (kvs.map (fun kv => PyVal.str kv.1))
  | .str s => .ok (s.toList.map (fun c => PyVal.str (String.singleton c)))
  | _ => .error .typeError

/-- Python repr of `sorted(_SCHEMA_NODE_TYPES)` as the group child-type
message interpolates it. -/
def schemaTypesRepr : String :=
  "['condition', 'exit', 'expression', 'filter', 'group', 'order', 'weight']"

/-- The per-child loop of `validate_group_node` (lines 275-287): a
non-dict child is reported, but the unconditional `child.get("type")` that
follows then raises `AttributeError`. -/
def groupChildrenLoop (nid : String) (idx : Nat) :
    List PyVal → Except PyExc (List String)
  | [] => .ok []
  | child :: rest => do
      match child with
      | .dict ckvs =>
          let ctype := pyGetD ckvs "type" .none
          let e2 :=
            if ¬ ctype.isStr then
              ["For order '" ++ nid ++ "', group.child[" ++ toString idx ++
               "].type must be a string"]
            else []
          let e3 :=
            if ¬ (_SCHEMA_NODE_TYPES.any (pyEqStr ctype)) then
              ["For order '" ++ nid ++ "', group.child[" ++ toString idx ++
               "].type '" ++ pyStr ctype ++ "' is not allowed here (allowed: " ++
               schemaTypesRepr ++ ")"]
            else []
          let restE ← groupChildrenLoop nid (idx + 1) rest
          pure (e2 ++ e3 ++ restE)
      | _ =>
          -- the "must be an object" error is recorded, then
          -- `child.get("type")` raises on the non-dict child
          .error .attributeError

/-- `LogicValidator.validate_group_node` (defaults:
`require_children=True`, `require_description=False`). -/
def validate_group_node (node : PyVal) (require_children : Bool := true)
    (require_description : Bool := false) :
    Except PyExc (Bool × List String) :=
  match node with
  | .dict kvs =>
      let nid := nodeIdStr kvs
      let e_type :=
        if ¬ pyEqStr (pyGetD kvs "type" .none) "group" then
          ["For order '{node_id}', node.type must be 'group'"]
        else []
      let node_id := pyGetD kvs "id" .none
      let e_id :=
        if ¬ node_id.isNone ∧ ¬ node_id.isStr then
          ["For order '{node_id}', group.id must be a string when provided"]
        else []
      let desc := pyGetD kvs "description" .none
      let e_desc :=
        if require_description then
          if ¬ isNonBlankStr desc then
            ["For order '{node_id}', group.description is required and must be a non-empty string"]
          else []
        else
          if ¬ desc.isNone ∧ ¬ desc.isStr then
            ["For order '{node_id}', group.description must be a string when provided"]
          else []
      let children0 := pyGetD kvs "children" (.list [])
      let children := if children0.isNone then .list [] else children0
      let e_c1 :=
        if require_children ∧ ¬ children.isList then
          ["For order '{node_id}', group.children must be an array when provided"]
        else []
      (do
        let e_c2 ←
          if require_children then do
            let n ← pyLen children
            pure (if n = 0 then
              ["For order '{node_id}', group must contain at least one child"]
            else ([] : List String))
          else pure []
        let e_c3 :=
          if ¬ children.isList then
            ["For order '{node_id}', group.children must be an array if present"]
          else []
        let items ← pyIterVals children
        let loopE ← groupChildrenLoop nid 0 items
        let errs := e_type ++ e_id ++ e_desc ++ e_c1 ++ e_c2 ++ e_c3 ++ loopE
        pure (errs.isEmpty, errs))
  | _ => .ok (false, ["group node must be a dict"])

/-- `LogicValidator.validate_weight_node`.  Note the source reads
`node.get("type")` *before* its dict check, so a non-dict node raises. -/
def validate_weight_node (node : PyVal) : Except PyExc (Bool × List String) :=
  match node with
  | .dict kvs =>
      let type_of_node := pyGetD kvs "type" .none
      let nid := nodeIdStr kvs
      let e_type :=
        if ¬ pyEqStr type_of_node "weight" then
          ["For weight " ++ nid ++ ", Weight node must be a type 'weight'"]
        else []
      let am := pyGetD kvs "allocation_method" .none
      let e_am :=
        if am.isNone then
          ["For weight " ++ nid ++ ", Weight node must have an allocation_method"]
        else if ¬ (["explicit_weights", "inverse_volatility"].any (pyEqStr am)) then
          ["For weight " ++ nid ++
           ", Weight node allocation_method must be one of: explicit_weights, inverse_volatility"]
        else []
      let errs := e_type ++ e_am
      .ok (errs.isEmpty, errs)
  | _ => .error .attributeError

/-- The normalized "kind" of a condition operand after `_parse_operand`:
a metric object, a numeric literal, or invalid. -/
inductive OperandKind : Type where
  | metric : OperandKind
  | literal : OperandKind
  | invalid : OperandKind
deriving DecidableEq

/-- `args.get("period")` is a positive int: in Python `bool` is an `int`
(`True` counts as 1). -/
def periodPosInt : PyVal → Bool
  | .int n => 0 < n
  | .bool b => b
  | _ => false

/-- `_validate_metric` of `validate_condition_node` (lines 374-413):
returns the operand kind together with the errors it appends.  `ams`/`asy`
are the already-normalized allowed sets (`none` when the caller passed a
falsy value). -/
def _validate_metric (nid : String) (ams asy : Option (List String))
    (require_symbol_for_metrics : Bool) (m : PyVal) (side : String) :
    OperandKind × List String :=
  match m with
  | .dict mkvs =>
      let nameV := pyGetD mkvs "name" .none
      (match nameV with
       | .str name =>
          if (strTrim name == "") then
            (.invalid,
             ["For condition '" ++ nid ++ "', " ++ side ++
              ": metric.name must be a non-empty string"])
          else
            let lname := strLower (strTrim name)
            let e1 :=
              match ams with
              | some ms =>
                  if lname ∉ ms then
                    ["For condition '" ++ nid ++ "', " ++ side ++
                     ": metric.name '" ++ name ++ "' is not in allowed_metrics"]
                  else []
              | Option.none => []
            let args0 := pyGetD mkvs "args" (.dict [])
            let args1 := if args0.isNone then .dict [] else args0
            let e2 :=
              if ¬ args1.isDict then
                ["For condition '" ++ nid ++ "', " ++ side ++
                 ": metric.args must be a dict when provided"]
              else []
            let args := if args1.isDict then args1 else .dict []
            let sym := pyGetD mkvs "symbol" .none
            let (sym_norm, e3) :=
              if require_symbol_for_metrics then
                match sym with
                | .str s =>
                    if (strTrim s == "") then
                      (Option.none,
                       ["For condition '" ++ nid ++ "', " ++ side ++
                        ": metric.symbol is required and must be a non-empty string"])
                    else (some (strUpper (strTrim s)), [])
                | _ =>
                    (Option.none,
                     ["For condition '" ++ nid ++ "', " ++ side ++
                      ": metric.symbol is required and must be a non-empty string"])
              else
                match sym with
                | .str s =>
                    if (strTrim s == "") then (Option.none, [])
                    else (some (strUpper (strTrim s)), [])
                | _ => (Option.none, [])
            let e4 :=
              match asy, sym_norm with
              | some ss, some s =>
                  if s ∉ ss then
                    ["For condition '" ++ nid ++ "', " ++ side ++ ": symbol '" ++
                     s ++ "' is not in allowed_symbols"]
                  else []
              | _, _ => []
            let e5 :=
              if lname ∈ ["moving-average-price", "rsi"] ∧
                  ¬ periodPosInt ((pyValGet args "period" .none).toOption.getD .none) then
                ["For condition '" ++ nid ++ "', " ++ side ++ ": metric '" ++
                 name ++ "' requires args.period as positive int"]
              else []
            (.metric, e1 ++ e2 ++ e3 ++ e4 ++ e5)
       | _ =>
          (.invalid,
           ["For condition '" ++ nid ++ "', " ++ side ++
            ": metric.name must be a non-empty string"]))
  | _ =>
      (.invalid,
       ["For condition '" ++ nid ++ "', " ++ side ++
        ": metric operand must be an object"])

/-- `_parse_operand` (lines 415-426): a dict carrying `name` is validated
as a metric, a non-bool number is a literal, anything else is invalid. -/
def _parse_operand (nid : String) (ams asy : Option (List String))
    (require_symbol_for_metrics : Bool) (x : PyVal) (side : String) :
    OperandKind × List String :=
  match x with
  | .dict mkvs =>
      if mkvs.any (fun kv => kv.1 = "name") then
        _validate_metric nid ams asy require_symbol_for_metrics (.dict mkvs) side
      else
        (.invalid,
         ["For condition '" ++ nid ++ "', " ++ side ++
          ": operand must be a metric object or a numeric literal"])
  | _ =>
      if isNumericLiteral x then (.literal, [])
      else
        (.invalid,
         ["For condition '" ++ nid ++ "', " ++ side ++
          ": operand must be a metric object or a numeric literal"])

/-- `set(m.lower() for m in allowed_metrics) if allowed_metrics else None`:
a falsy (empty) list behaves like `None`. -/
def normMetricsOpt (am : Option (List String)) : Option (List String) :=
  match am with
  | some l => if l.isEmpty then Option.none else some (l.map strLower)
  | Option.none => Option.none

/-- `set(s.upper() for s in allowed_symbols) if allowed_symbols else None`. -/
def normSymbolsOpt (asy : Option (List String)) : Option (List String) :=
  match asy with
  | some l => if l.isEmpty then Option.none else some (l.map strUpper)
  | Option.none => Option.none

/-- The parsed lhs operand of a condition node: `_parse_operand` on
`node["lhs"]` when the key is present, invalid otherwise (lines 430-436). -/
def conditionLhsParsed (kvs : List (String × PyVal))
    (ams asy : Option (List String)) (rsm : Bool) : OperandKind × List String :=
  if kvs.any (fun kv => kv.1 = "lhs") then
    _parse_operand (nodeIdStr kvs) ams asy rsm (pyGetD kvs "lhs" .none) "lhs"
  else (.invalid, [])

/-- The parsed rhs operand (lines 438-444). -/
def conditionRhsParsed (kvs : List (String × PyVal))
    (ams asy : Option (List String)) (rsm : Bool) : OperandKind × List String :=
  if kvs.any (fun kv => kv.1 = "rhs") then
    _parse_operand (nodeIdStr kvs) ams asy rsm (pyGetD kvs "rhs" .none) "rhs"
  else (.invalid, [])

/-- Python repr of `sorted(_CONDITION_OPS)` as the operator message
interpolates it. -/
def conditionOpsRepr : String :=
  "['crosses_above', 'crosses_below', 'eq', 'gt', 'gte', 'lt', 'lte', 'neq']"

/-- `_is_else_group` (lines 483-489): a `group` dict whose `description`
matches the else-label case-insensitively. -/
def isElseGroup (label_norm : String) (c : PyVal) : Bool :=
  match c with
  | .dict ckvs =>
      pyEqStr (pyGetD ckvs "type" .none) "group" &&
        (match pyGetD ckvs "description" .none with
         | .str d => strLower (strTrim d) == label_norm
         | _ => false)
  | _ => false

/-- Whether a condition node carries `lhs`. -/
def conditionHasLhs (kvs : List (String × PyVal)) : Bool :=
  kvs.any (fun kv => kv.1 = "lhs")

/-- Whether a condition node carries `operator`. -/
def conditionHasOp (kvs : List (String × PyVal)) : Bool :=
  kvs.any (fun kv => kv.1 = "operator")

/-- `flag_check_for_operator` (lines 348-356): false exactly when both
`lhs` and `operator` are absent. -/
def conditionFlag (kvs : List (String × PyVal)) : Bool :=
  conditionHasLhs kvs || conditionHasOp kvs

/-- The operator value after the source's reassignment `op = ""` for a
non-string operator (lines 358-362). -/
def conditionOpEff (kvs : List (String × PyVal)) : String :=
  match pyGetD kvs "operator" .none with
  | .str s => s
  | _ => ""

/-- The `node.type must be 'condition'` error (line 342, literal braces:
the source string is not an f-string). -/
def conditionTypeErrs (kvs : List (String × PyVal)) : List String :=
  if ¬ pyEqStr (pyGetD kvs "type" .none) "condition" then
    ["For condition '{node_id}', node.type must be 'condition'"]
  else []

/-- The lhs/operator pairing error (lines 350-352). -/
def conditionPairErrs (kvs : List (String × PyVal)) : List String :=
  if ¬ ((¬ conditionHasLhs kvs ∧ ¬ conditionHasOp kvs) ∨
        (conditionHasLhs kvs ∧ conditionHasOp kvs)) then
    ["For condition '" ++ nodeIdStr kvs ++
     "', All two of condition.lhs, and condition.operator are required"]
  else []

/-- The non-string-operator error (line 360, literal braces). -/
def conditionOpStrErrs (kvs : List (String × PyVal)) : List String :=
  if conditionFlag kvs ∧ ¬ (pyGetD kvs "operator" .none).isStr then
    ["For condition '{node_id}', condition.operator must be a string"]
  else []

/-- The unknown-operator error (line 365). -/
def conditionOpInErrs (kvs : List (String × PyVal)) : List String :=
  if conditionFlag kvs ∧ conditionOpEff kvs ∉ _CONDITION_OPS then
    ["condition.operator must be one of " ++ conditionOpsRepr]
  else []

/-- The crosses-operators metric-only error (lines 450-452; note the
source f-string has no space after the comma). -/
def conditionCrossesErrs (kvs : List (String × PyVal))
    (ams asy : Option (List String)) (rsm : Bool) : List String :=
  if conditionFlag kvs ∧
      conditionOpEff kvs ∈ ["crosses_above", "crosses_below"] ∧
      ¬ ((conditionLhsParsed kvs ams asy rsm).1 = .metric ∧
         (conditionRhsParsed kvs ams asy rsm).1 = .metric) then
    ["For condition '" ++ nodeIdStr kvs ++ "'," ++ conditionOpEff kvs ++
     " requires both lhs and rhs to be metrics (no literals)"]
  else []

/-- The both-literal error for comparison operators (lines 454-456). -/
def conditionBothLitErrs (kvs : List (String × PyVal))
    (ams asy : Option (List String)) (rsm : Bool) : List String :=
  if conditionFlag kvs ∧
      conditionOpEff kvs ∈ ["gt", "gte", "lt", "lte", "eq", "neq"] ∧
      (conditionLhsParsed kvs ams asy rsm).1 = .literal ∧
      (conditionRhsParsed kvs ams asy rsm).1 = .literal then
    ["For condition '" ++ nodeIdStr kvs ++ "', " ++ conditionOpEff kvs ++
     " requires at least one operand to be a metric"]
  else []

/-- The id-type error (lines 459-462). -/
def conditionIdErrs (kvs : List (String × PyVal)) : List String :=
  if ¬ (pyGetD kvs "id" .none).isNone ∧ ¬ (pyGetD kvs "id" .none).isStr then
    ["For condition '" ++ nodeIdStr kvs ++
     "', condition.id must be a string when provided"]
  else []

/-- The node id the else-branch messages interpolate: the source resets
its local `node_id` to None after an invalid id (line 462). -/
def conditionNidA (kvs : List (String × PyVal)) : String :=
  if ¬ (pyGetD kvs "id" .none).isNone ∧ ¬ (pyGetD kvs "id" .none).isStr then
    pyStr PyVal.none
  else nodeIdStr kvs

/-- The description-type error (line 466, literal braces). -/
def conditionDescErrs (kvs : List (String × PyVal)) : List String :=
  if ¬ (pyGetD kvs "description" .none).isNone ∧
      ¬ (pyGetD kvs "description" .none).isStr then
    ["For condition '{node_id}', condition.description must be a string when provided"]
  else []

/-- `node.get("children", [])` normalized: `None` becomes `[]`
(lines 473-475). -/
def conditionChildrenVal (kvs : List (String × PyVal)) : PyVal :=
  let c0 := pyGetD kvs "children" (.list [])
  if c0.isNone then .list [] else c0

/-- The children as a list (a non-list is reported and treated as `[]`,
lines 476-478). -/
def conditionChildren (kvs : List (String × PyVal)) : List PyVal :=
  match conditionChildrenVal kvs with
  | .list xs => xs
  | _ => []

/-- The `(index, child)` pairs of children matching the else-label
(line 491). -/
def conditionElseEntries (kvs : List (String × PyVal)) (else_label : String) :
    List (Nat × PyVal) :=
  (conditionChildren kvs).enum.filter
    (fun p => isElseGroup (strLower (strTrim else_label)) p.2)

/-- The else-branch errors (lines 469-518). -/
def conditionElseErrs (kvs : List (String × PyVal)) (validate_else : Bool)
    (else_required : Bool) (else_label : String) (else_must_be_last : Bool)
    (else_require_children : Bool) : List String :=
  if validate_else then
    let nidA := conditionNidA kvs
    let e_ca :=
      if ¬ (conditionChildrenVal kvs).isList then
        ["For condition '" ++ nidA ++
         "', condition.children must be an array when provided"]
      else []
    let children := conditionChildren kvs
    let entries := conditionElseEntries kvs else_label
    let e_req :=
      if else_required ∧ entries.isEmpty then
        ["For condition '" ++ nidA ++
         "', condition requires an Else branch group but none was found"]
      else []
    let e_multi :=
      if entries.length > 1 then
        ["For condition '" ++ nidA ++
         "',condition has multiple Else branch groups; only one is allowed"]
      else []
    let presentErrs :=
      match entries.head? with
      | some (idx, else_node) =>
          let e_last :=
            if else_must_be_last ∧ idx ≠ children.length - 1 then
              ["For condition '" ++ nidA ++
               "',Else branch must be the last direct child of the condition"]
            else []
          let eb0 :=
            match else_node with
            | .dict ekvs => pyGetD ekvs "children" (.list [])
            | _ => .list []
          let eb1 := if eb0.isNone then .list [] else eb0
          let e_eba :=
            if ¬ eb1.isList then
              ["For condition '" ++ nidA ++
               "',Else branch 'children' must be an array"]
            else []
          let ebChildren := match eb1 with | .list xs => xs | _ => []
          let e_ebempty :=
            if else_require_children ∧ ebChildren.isEmpty then
              ["For condition '" ++ nidA ++
               "',Else branch must contain at least one child"]
            else []
          let e_then :=
            if children.length < 2 then
              ["Condition must have at least one non-Else child as the THEN branch"]
            else []
          e_last ++ e_eba ++ e_ebempty ++ e_then
      | Option.none => []
    e_ca ++ e_req ++ e_multi ++ presentErrs
  else []

/-- The full error list of `validate_condition_node` on a dict node, in
the source's append order. -/
def conditionErrs (kvs : List (String × PyVal))
    (am asy : Option (List String)) (rsm ve er : Bool) (el : String)
    (eml erc : Bool) : List String :=
  conditionTypeErrs kvs ++ conditionPairErrs kvs ++ conditionOpStrErrs kvs ++
    conditionOpInErrs kvs ++
    (conditionLhsParsed kvs (normMetricsOpt am) (normSymbolsOpt asy) rsm).2 ++
    (conditionRhsParsed kvs (normMetricsOpt am) (normSymbolsOpt asy) rsm).2 ++
    conditionCrossesErrs kvs (normMetricsOpt am) (normSymbolsOpt asy) rsm ++
    conditionBothLitErrs kvs (normMetricsOpt am) (normSymbolsOpt asy) rsm ++
    conditionIdErrs kvs ++ conditionDescErrs kvs ++
    conditionElseErrs kvs ve er el eml erc

/-- `LogicValidator.validate_condition_node` with its keyword knobs
(defaults as in the source signature).  The function never raises, so it
returns the `(is_valid, errors)` pair directly. -/
def validate_condition_node (node : PyVal)
    (am : Option (List String) := Option.none)
    (asy : Option (List String) := Option.none)
    (require_symbol_for_metrics : Bool := true)
    (validate_else : Bool := true)
    (else_required : Bool := false)
    (else_label : String := "Else branch")
    (else_must_be_last : Bool := true)
    (else_require_children : Bool := true) : Bool × List String :=
  match node with
  | .dict kvs =>
      let errs := conditionErrs kvs am asy require_symbol_for_metrics
        validate_else else_required else_label else_must_be_last
        else_require_children
      (errs.isEmpty, errs)
  | _ => (false, ["condition node must be a dict"])

/-- `isinstance(n, int)` — Python bools are ints. -/
def pyIsInt : PyVal → Bool
  | .int _ => true
  | .bool _ => true
  | _ => false

/-- The integer value of an int-like (`True` is 1, `False` is 0). -/
def pyIntVal : PyVal → Int
  | .int n => n
  | .bool b => if b then 1 else 0
  | _ => 0

/-- The universe normalization of `validate_filter_node` (lines 601-607):
strip, uppercase, keep nonempty first occurrences in order. -/
def filterNormalizeUniverse (raw : List String) : List String :=
  (raw.foldl
    (fun acc s =>
      let sym := strUpper (strTrim s)
      if sym ≠ "" ∧ sym ∉ acc then acc ++ [sym] else acc)
    [])

/-- `LogicValidator.validate_filter_node` (defaults:
`allowed_metrics=None`, `allowed_symbols=None`,
`require_universe_nonempty=True`).  A non-dict node hits the source's
`return False. errors` (line 575), which is attribute access on the
constant `False` and raises `AttributeError`. -/
def validate_filter_node (node : PyVal)
    (am : Option (List String) := Option.none)
    (asy : Option (List String) := Option.none)
    (require_universe_nonempty : Bool := true) :
    Except PyExc (Bool × List String) :=
  match node with
  | .dict kvs =>
      let nid0 := nodeIdStr kvs
      let e_type :=
        if ¬ pyEqStr (pyGetD kvs "type" .none) "filter" then
          ["For filter '" ++ nid0 ++ "', node.type must be 'filter'"]
        else []
      let node_id := pyGetD kvs "id" .none
      let e_id :=
        if ¬ node_id.isNone ∧ ¬ node_id.isStr then
          ["For filter '" ++ nid0 ++ "', filter.id must be a string when provided"]
        else []
      -- the local `node_id` is reset to None after an invalid id, so every
      -- later message interpolates None in that case
      let nid := if ¬ node_id.isNone ∧ ¬ node_id.isStr then pyStr PyVal.none else nid0
      let desc := pyGetD kvs "description" .none
      let e_desc :=
        if ¬ desc.isNone ∧ ¬ desc.isStr then
          ["For filter '" ++ nid ++
           "', filter.description must be a string when provided"]
        else []
      let raw0 := pyGetD kvs "universe" (.list [])
      let raw1 := if raw0.isNone then .list [] else raw0
      let e_u :=
        if ¬ isStrList raw1 then
          ["For filter '" ++ nid ++ "', filter.universe must be an array of strings"]
        else []
      let rawList : List String :=
        match raw1 with
        | .list xs => if xs.all PyVal.isStr then
            xs.filterMap (fun x => match x with | .str s => some s | _ => Option.none)
          else []
        | _ => []
      let universeN := filterNormalizeUniverse rawList
      let e_empty :=
        if require_universe_nonempty ∧ universeN.isEmpty then
          ["For filter '" ++ nid ++ "', filter.universe must contain at least one symbol"]
        else []
      let e_allowed :=
        match asy with
        | some as0 =>
            let allowed_set := as0.map (fun a => strUpper (strTrim a))
            let invalid := universeN.filter (fun s => s ∉ allowed_set)
            if ¬ invalid.isEmpty then
              ["For filter '" ++ nid ++ "', filter.universe contains symbols not allowed: " ++
               commaJoin invalid]
            else []
        | Option.none => []
      let select := pyGetD kvs "select" .none
      let e_select :=
        if ¬ (["top", "bottom", "middle"].any (pyEqStr select)) then
          ["For filter '" ++ nid ++ "', filter.select must be one of: 'top', 'bottom', 'middle'"]
        else []
      let selection0 := pyGetD kvs "selection" (.dict [])
      let e_sel :=
        if ¬ selection0.isDict then
          ["For filter '" ++ nid ++ "', filter.selection must be an object with at least 'n'"]
        else []
      let selection := if selection0.isDict then selection0 else .dict []
      let n := (pyValGet selection "n" .none).toOption.getD .none
      let e_n :=
        if ¬ (pyIsInt n ∧ 0 < pyIntVal n) then
          ["For filter '" ++ nid ++ "', filter.selection.n must be a positive integer"]
        else []
      let e_nbound :=
        if pyIsInt n ∧ (universeN.length : Int) < pyIntVal n ∧ 0 < universeN.length then
          ["For filter '" ++ nid ++ "', filter.selection.n (" ++ pyStr n ++
           ") cannot exceed universe size (" ++ toString universeN.length ++ ")"]
        else []
      let metric := pyGetD kvs "metric" .none
      let metricErrs :=
        match metric with
        | .dict mkvs =>
            let nameV := pyGetD mkvs "name" .none
            let (metric_name, e_mn) :=
              match nameV with
              | .str s =>
                  if (strTrim s == "") then
                    (Option.none,
                     ["For filter '" ++ nid ++ "', filter.metric.name must be a non-empty string"])
                  else
                    let mn := strLower (strTrim s)
                    let allowed_set :=
                      match am with
                      | some l => l
                      | Option.none => allowed_metrics
                    if mn ∉ allowed_set then
                      (some mn,
                       ["For filter '" ++ nid ++ "', filter.metric.name '" ++ mn ++
                        "' is not allowed"])
                    else (some mn, [])
              | _ =>
                  (Option.none,
                   ["For filter '" ++ nid ++ "', filter.metric.name must be a non-empty string"])
            let e_sym :=
              if mkvs.any (fun kv => kv.1 = "symbol") ∧
                  isNonBlankStr (pyGetD mkvs "symbol" .none) then
                ["For filter '" ++ nid ++
                 "', filter.metric.symbol should not be provided for a filter; metric applies to each universe symbol"]
              else []
            let args0 := pyGetD mkvs "args" (.dict [])
            let args1 := if args0.isNone then .dict [] else args0
            let e_args :=
              if ¬ args1.isDict then
                ["For filter '" ++ nid ++ "', filter.metric.args must be an object when provided"]
              else []
            let metric_args := if args1.isDict then args1 else .dict []
            let e_period :=
              match metric_name with
              | some mn =>
                  if mn ∈ METRICS_REQUIRE_PERIOD ∧
                      ¬ periodPosInt ((pyValGet metric_args "period" .none).toOption.getD .none) then
                    ["For filter '" ++ nid ++ "', filter.metric '" ++ mn ++
                     "' requires 'args.period' as a positive integer"]
                  else []
              | Option.none => []
            e_mn ++ e_sym ++ e_args ++ e_period
        | _ =>
            ["For filter '" ++ nid ++ "', filter.metric must be an object"]
      let errs := e_type ++ e_id ++ e_desc ++ e_u ++ e_empty ++ e_allowed ++
        e_select ++ e_sel ++ e_n ++ e_nbound ++ metricErrs
      .ok (errs.isEmpty, errs)
  | _ =>
      -- `return False. errors`: attribute access on `False`
      .error .attributeError

/-- How a traversal step ends abnormally: `handle_validation_errors`
printing the errors and calling `sys.exit()`, or a Python exception. -/
inductive Abort : Type where
  | exit : List String → Abort
  | exc : PyExc → Abort
deriving DecidableEq

/-- `LogicValidator.handle_validation_errors`: on an invalid result the
errors are printed and `sys.exit()` ends the run. -/
def handle_validation_errors (is_valid : Bool) (errors : List String) :
    Except Abort Unit :=
  if is_valid then .ok () else .error (.exit errors)

/-- `LogicValidator.check_node_type_and_validate`: dispatch on
`data.get('type')` to the per-node validator (the `weight` branch's unused
`allowed_symbols` argument is dropped), reporting an unknown type as a
validation error.  A non-dict `data` raises at `data.get`. -/
def check_node_type_and_validate (data : PyVal) (allowed : List String) :
    Except Abort Unit :=
  match data with
  | .dict kvs =>
      let t := pyGetD kvs "type" .none
      if pyEqStr t "condition" then
        let (v, errs) := validate_condition_node data
        handle_validation_errors v errs
      else if pyEqStr t "group" then
        match validate_group_node data with
        | .ok (v, errs) => handle_validation_errors v errs
        | .error e => .error (.exc e)
      else if pyEqStr t "order" then
        match validate_order_node data allowed with
        | .ok (v, errs) => handle_validation_errors v errs
        | .error e => .error (.exc e)
      else if pyEqStr t "filter" then
        match validate_filter_node data Option.none (some allowed) with
        | .ok (v, errs) => handle_validation_errors v errs
        | .error e => .error (.exc e)
      else if pyEqStr t "weight" then
        match validate_weight_node data with
        | .ok (v, errs) => handle_validation_errors v errs
        | .error e => .error (.exc e)
      else
        handle_validation_errors false ["Unknown node type: " ++ pyStr t]
  | _ => .error (.exc .attributeError)

end LogicValidator

-- Size of a `PyVal`: the termination measure for the traversal.
mutual

/-- Size of a `PyVal`. -/
def psize : PyVal → Nat
  | .list xs => 1 + psizeList xs
  | .dict kvs => 1 + psizeKVs kvs
  | _ => 1

/-- Size of a list of `PyVal`s. -/
def psizeList : List PyVal → Nat
  | [] => 0
  | x :: xs => 1 + psize x + psizeList xs

/-- Size of a dict's entries. -/
def psizeKVs : List (String × PyVal) → Nat
  | [] => 0
  | kv :: rest => 1 + psize kv.2 + psizeKVs rest

end

theorem psize_le_of_dictFind {kvs : List (String × PyVal)} {key : String}
    {v : PyVal} (h : dictFind kvs key = some v) : psize v ≤ psizeKVs kvs := by
  induction kvs with
  | nil => simp [dictFind] at h
  | cons kv rest ih =>
      by_cases hk : kv.1 = key
      · have : some kv.2 = some v := by
          simpa [dictFind, hk] using h
        cases this
        simp [psizeKVs]
        omega
      · have h' : dictFind rest key = some v := by
          simpa [dictFind, hk] using h
        have := ih h'
        simp [psizeKVs]
        omega

namespace LogicValidator

mutual

/-- `LogicValidator.trace_json_data_recursive`: when `data` carries a
`children` field, validate and recurse into each dict item of a list of
children (or into a single dict of children); otherwise validate `data`
itself.  A non-dict `data` raises (`in` on a number is a `TypeError`;
`data.get` inside the dispatch is an `AttributeError`). -/
def trace_json_data_recursive (allowed : List String) (data : PyVal) :
    Except Abort Unit :=
  match data with
  | .dict kvs =>
      match h : dictFind kvs "children" with
      | some (.list xs) => traceChildrenList allowed xs
      | some (.dict ckvs) => do
          check_node_type_and_validate (.dict ckvs) allowed
          trace_json_data_recursive allowed (.dict ckvs)
      | some _ => .ok ()
      | Option.none => check_node_type_and_validate (.dict kvs) allowed
  | .list xs =>
      if xs.any (fun x => pyEqStr x "children") then .error (.exc .typeError)
      else .error (.exc .attributeError)
  | .str s =>
      if strContains s "children" then .error (.exc .typeError)
      else .error (.exc .attributeError)
  | _ => .error (.exc .typeError)
termination_by psize data
decreasing_by
  · have h2 := psize_le_of_dictFind h
    simp only [psize] at h2 ⊢
    omega
  · have h2 := psize_le_of_dictFind h
    simp only [psize] at h2 ⊢
    omega

/-- The `for item in children_data` loop of `trace_json_data_recursive`:
dict items are validated then recursed into, other items are skipped. -/
def traceChildrenList (allowed : List String) : List PyVal → Except Abort Unit
  | [] => .ok ()
  | .dict ikvs :: rest => do
      check_node_type_and_validate (.dict ikvs) allowed
      trace_json_data_recursive allowed (.dict ikvs)
      traceChildrenList allowed rest
  | _ :: rest => traceChildrenList allowed rest
termination_by xs => psizeList xs
decreasing_by
  · simp only [psize, psizeList]
    omega
  · simp only [psizeList]
    omega
  · simp only [psizeList]
    omega

end

/-- `LogicValidator.validate_logic` (the instance method): run the
recursive trace. -/
def validate_logic (logic : PyVal) (allowed : List String) :
    Except Abort Unit :=
  trace_json_data_recursive allowed logic

end LogicValidator

/-! ## Helper lemmas about the custom indicators -/

theorem maxDrawdownScan_nonpos (l : List Rat) :
    ∀ peak : Rat, peak ≤ 0 → (∀ x ∈ l, x ≤ 0) → maxDrawdownScan peak 0 l = 0 := by
  induction l with
  | nil => intro peak _ _; rfl
  | cons p rest ih =>
      intro peak hpeak hall
      by_cases hp : p > peak
      · rw [maxDrawdownScan, if_pos hp]
        exact ih p (hall p (by simp)) (fun x hx => hall x (by simp [hx]))
      · rw [maxDrawdownScan, if_neg hp]
        have hnp : ¬ peak > 0 := by linarith
        rw [if_neg hnp]
        simpa [pyMax2] using ih peak hpeak (fun x hx => hall x (by simp [hx]))

theorem maxDD_update_history_mem {ind : MaxDrawdownIndicator} {p x : Rat}
    (hx : x ∈ (ind.update p).price_history) :
    x ∈ ind.price_history ∨ x = p := by
  unfold MaxDrawdownIndicator.update at hx
  dsimp only at hx
  rcases le_or_lt ((ind.price_history ++ [p]).length : Int) ind.period with h | h
  · rw [if_neg (by omega)] at hx
    simpa using hx
  · rw [if_pos (by omega)] at hx
    have := List.mem_of_mem_tail hx
    simpa using this

theorem maxDD_runUpdates_history_mem (ps : List Rat) :
    ∀ (ind : MaxDrawdownIndicator) (x : Rat),
      x ∈ (ind.runUpdates ps).price_history →
      x ∈ ind.price_history ∨ x ∈ ps := by
  induction ps with
  | nil => intro ind x hx; exact Or.inl hx
  | cons p rest ih =>
      intro ind x hx
      rcases ih (ind.update p) x hx with h | h
      · rcases maxDD_update_history_mem h with h1 | h1
        · exact Or.inl h1
        · exact Or.inr (by simp [h1])
      · exact Or.inr (by simp [h])

theorem maxDD_value_nonpos (ind : MaxDrawdownIndicator)
    (h : ∀ x ∈ ind.price_history, x ≤ 0) : ind.value = 0 := by
  unfold MaxDrawdownIndicator.value
  split
  · rfl
  · match hh : ind.price_history with
    | [] => rfl
    | peak0 :: rest =>
        exact maxDrawdownScan_nonpos rest peak0 (h peak0 (by simp [hh]))
          (fun x hx => h x (by simp [hh, hx]))

theorem pyMax_nonpos (l : List Rat) :
    ∀ m : Rat, m ≤ 0 → (∀ x ∈ l, x ≤ 0) → pyMax m l ≤ 0 := by
  induction l with
  | nil => intro m hm _; simpa [pyMax] using hm
  | cons x rest ih =>
      intro m hm hall
      rw [pyMax]
      refine ih (pyMax2 m x) ?_ (fun y hy => hall y (by simp [hy]))
      have hx := hall x (by simp)
      unfold pyMax2
      split <;> assumption

theorem dd_update_history_mem {ind : DrawdownIndicator} {p x : Rat}
    (hx : x ∈ (ind.update p).price_history) :
    x ∈ ind.price_history ∨ x = p := by
  unfold DrawdownIndicator.update at hx
  dsimp only at hx
  rcases le_or_lt ((ind.price_history ++ [p]).length : Int) ind.period with h | h
  · rw [if_neg (by omega)] at hx
    simpa using hx
  · rw [if_pos (by omega)] at hx
    have := List.mem_of_mem_tail hx
    simpa using this

theorem dd_runUpdates_history_mem (ps : List Rat) :
    ∀ (ind : DrawdownIndicator) (x : Rat),
      x ∈ (ind.runUpdates ps).price_history →
      x ∈ ind.price_history ∨ x ∈ ps := by
  induction ps with
  | nil => intro ind x hx; exact Or.inl hx
  | cons p rest ih =>
      intro ind x hx
      rcases ih (ind.update p) x hx with h | h
      · rcases dd_update_history_mem h with h1 | h1
        · exact Or.inl h1
        · exact Or.inr (by simp [h1])
      · exact Or.inr (by simp [h])

theorem dd_value_nonpos (ind : DrawdownIndicator)
    (h : ∀ x ∈ ind.price_history, x ≤ 0) : ind.value = 0 := by
  unfold DrawdownIndicator.value
  split
  · rfl
  · match hh : ind.price_history with
    | [] => rfl
    | h0 :: rest =>
        have hpeak : pyMax h0 rest ≤ 0 :=
          pyMax_nonpos rest h0 (h h0 (by simp [hh]))
            (fun x hx => h x (by simp [hh, hx]))
        have : ¬ pyMax h0 rest > 0 := by linarith
        simp only [this, if_false]

/-- C7: after the price sequence `[100, 120, 90]` the max-drawdown
indicator's value is `(120-90)/120 = 0.25` and the drawdown indicator's
value is the same `0.25`; both indicators return `0.0` when fewer than two
prices have been observed, and when every observed price is non-positive
(so no running peak is positive). -/
theorem C7_custom_indicator_numeric_contract :
    (MaxDrawdownIndicator.init.runUpdates [100, 120, 90]).value = 1/4 ∧
    (DrawdownIndicator.init.runUpdates [100, 120, 90]).value = 1/4 ∧
    (∀ ps : List Rat, ps.length < 2 →
      (MaxDrawdownIndicator.init.runUpdates ps).value = 0 ∧
      (DrawdownIndicator.init.runUpdates ps).value = 0) ∧
    (∀ ps : List Rat, (∀ p ∈ ps, p ≤ 0) →
      (MaxDrawdownIndicator.init.runUpdates ps).value = 0 ∧
      (DrawdownIndicator.init.runUpdates ps).value = 0) := by
  refine ⟨?_, ?_, ?_, ?_⟩
  · norm_num [MaxDrawdownIndicator.init, MaxDrawdownIndicator.runUpdates,
      MaxDrawdownIndicator.update, MaxDrawdownIndicator.value, maxDrawdownScan,
      pyMax2]
  · norm_num [DrawdownIndicator.init, DrawdownIndicator.runUpdates,
      DrawdownIndicator.update, DrawdownIndicator.value, pyMax, pyMax2,
      List.getLast]
  · intro ps hps
    match ps, hps with
    | [], _ => exact ⟨rfl, rfl⟩
    | [p], _ => exact ⟨rfl, rfl⟩
  · intro ps hps
    constructor
    · apply maxDD_value_nonpos
      intro x hx
      rcases maxDD_runUpdates_history_mem ps MaxDrawdownIndicator.init x hx with h | h
      · simp [MaxDrawdownIndicator.init] at h
      · exact hps x h
    · apply dd_value_nonpos
      intro x hx
      rcases dd_runUpdates_history_mem ps DrawdownIndicator.init x hx with h | h
      · simp [DrawdownIndicator.init] at h
      · exact hps x h

/-! ## Helper lemmas about the indicator registry -/

namespace IndicatorGenerator

theorem insertAssoc_insertAssoc_self (m : List (String × IndicatorConfig))
    (k : String) (v : IndicatorConfig) :
    insertAssoc (insertAssoc m k v) k v = insertAssoc m k v := by
  induction m with
  | nil => simp [insertAssoc]
  | cons kv rest ih =>
      obtain ⟨k', v'⟩ := kv
      by_cases h : k' = k
      · simp [insertAssoc, h]
      · simp [insertAssoc, h, ih]

theorem insertSet_insertSet_self (l : List String) (s : String) :
    insertSet (insertSet l s) s = insertSet l s := by
  unfold insertSet
  by_cases h : s ∈ l
  · simp [h]
  · simp [h]

theorem addCustom_indicators_used (g : IndicatorGenerator) (n : String) :
    (addCustom g n).indicators_used = g.indicators_used := by
  unfold addCustom
  split <;> rfl

theorem addCustom_addCustom_self (g : IndicatorGenerator) (n : String) :
    addCustom (addCustom g n) n = addCustom g n := by
  unfold addCustom
  by_cases h : n ∈ CUSTOM_INDICATORS
  · simp [h, insertSet_insertSet_self]
  · simp [h]

theorem addCustom_set_used (g : IndicatorGenerator) (n : String)
    (m : List (String × IndicatorConfig)) :
    addCustom { g with indicators_used := m } n =
      { addCustom g n with indicators_used := m } := by
  unfold addCustom
  split <;> rfl

/-- The canonical key under which `_process_indicator` would store a
config: defined only when the name is implemented, the key builds, and the
symbol is a string (so the store happens). -/
def registeredKey (c : PyVal) : Option String :=
  match c with
  | .dict kvs =>
      let name := strLower (pyStr (pyGetD kvs "name" (.str "unknown")))
      let symbol := pyGetD kvs "symbol" .none
      let args := pyGetD kvs "args" (.dict [])
      if name ∈ IMPLEMENTED_INDICATORS then
        match _create_indicator_key name symbol args, symbol with
        | .ok k, .str _ => some k
        | _, _ => Option.none
      else Option.none
  | _ => Option.none

/-- The lowercased name `_process_indicator` reads off a config. -/
def cfgName (c : PyVal) : String :=
  match c with
  | .dict kvs => strLower (pyStr (pyGetD kvs "name" (.str "unknown")))
  | _ => ""

/-- The symbol string of a config (empty for non-string symbols). -/
def cfgSymbolStr (c : PyVal) : String :=
  match c with
  | .dict kvs =>
      match pyGetD kvs "symbol" .none with
      | .str s => s
      | _ => ""
  | _ => ""

/-- The args value of a config. -/
def cfgArgs (c : PyVal) : PyVal :=
  match c with
  | .dict kvs => pyGetD kvs "args" (.dict [])
  | _ => .dict []

/-- The `IndicatorConfig` that `_process_indicator` stores for a config. -/
def storedConfig (c : PyVal) : IndicatorConfig :=
  ⟨cfgName c, strUpper (cfgSymbolStr c), cfgArgs c⟩

theorem process_of_registeredKey {c : PyVal} {k : String}
    (h : registeredKey c = some k) (g : IndicatorGenerator) :
    _process_indicator g c =
      .ok (addCustom
        { g with indicators_used := insertAssoc g.indicators_used k (storedConfig c) }
        (cfgName c)) := by
  cases c with
  | dict kvs =>
      unfold registeredKey at h
      dsimp only at h
      by_cases hname :
          strLower (pyStr (pyGetD kvs "name" (.str "unknown"))) ∈ IMPLEMENTED_INDICATORS
      · rw [if_pos hname] at h
        cases hk : _create_indicator_key
            (strLower (pyStr (pyGetD kvs "name" (.str "unknown"))))
            (pyGetD kvs "symbol" .none) (pyGetD kvs "args" (.dict [])) with
        | error e =>
            rw [hk] at h
            cases hsym : pyGetD kvs "symbol" .none <;> rw [hsym] at h <;>
              simp at h
        | ok key =>
            rw [hk] at h
            cases hsym : pyGetD kvs "symbol" .none with
            | str s =>
                rw [hsym] at h
                dsimp only at h
                injection h with h
                subst h
                unfold _process_indicator
                dsimp only
                rw [if_pos hname, hk, hsym]
                dsimp only
                simp [storedConfig, cfgName, cfgSymbolStr, cfgArgs, hsym]
            | none => rw [hsym] at h; simp at h
            | bool b => rw [hsym] at h; simp at h
            | int n => rw [hsym] at h; simp at h
            | float q => rw [hsym] at h; simp at h
            | list xs => rw [hsym] at h; simp at h
            | dict d => rw [hsym] at h; simp at h
      · rw [if_neg hname] at h
        cases h
  | none => cases h
  | bool b => cases h
  | int n => cases h
  | float q => cases h
  | str s => cases h
  | list xs => cases h

theorem process_idem {g g' : IndicatorGenerator} {c : PyVal}
    (h : _process_indicator g c = .ok g') :
    _process_indicator g' c = .ok g' := by
  cases c with
  | dict kvs =>
      unfold _process_indicator at h ⊢
      dsimp only at h ⊢
      by_cases hname :
          strLower (pyStr (pyGetD kvs "name" (.str "unknown"))) ∈ IMPLEMENTED_INDICATORS
      · rw [if_pos hname] at h ⊢
        cases hk : _create_indicator_key
            (strLower (pyStr (pyGetD kvs "name" (.str "unknown"))))
            (pyGetD kvs "symbol" .none) (pyGetD kvs "args" (.dict [])) with
        | error e =>
            rw [hk] at h
            cases h
        | ok key =>
            rw [hk] at h
            cases hsym : pyGetD kvs "symbol" .none with
            | none =>
                rw [hsym] at h
                dsimp only at h ⊢
                injection h with h
                subst h
                rw [addCustom_addCustom_self]
            | str s =>
                rw [hsym] at h
                dsimp only at h ⊢
                injection h with h
                subst h
                unfold addCustom
                by_cases hc : strLower (pyStr (pyGetD kvs "name" (.str "unknown"))) ∈
                    CUSTOM_INDICATORS
                · simp [hc, insertAssoc_insertAssoc_self, insertSet_insertSet_self]
                · simp [hc, insertAssoc_insertAssoc_self]
            | bool b => rw [hsym] at h; simp at h
            | int n => rw [hsym] at h; simp at h
            | float q => rw [hsym] at h; simp at h
            | list xs => rw [hsym] at h; simp at h
            | dict d => rw [hsym] at h; simp at h
      · rw [if_neg hname] at h ⊢
  | none => cases h
  | bool b => cases h
  | int n => cases h
  | float q => cases h
  | str s => cases h
  | list xs => cases h

theorem mem_keys_insertAssoc (m : List (String × IndicatorConfig))
    (k : String) (v : IndicatorConfig) :
    k ∈ (insertAssoc m k v).map Prod.fst := by
  induction m with
  | nil => simp [insertAssoc]
  | cons kv rest ih =>
      obtain ⟨k', v'⟩ := kv
      by_cases h : k' = k
      · simp [insertAssoc, h]
      · simp only [insertAssoc, if_neg h, List.map_cons, List.mem_cons]
        exact Or.inr ih

theorem length_insertAssoc_of_mem {m : List (String × IndicatorConfig)}
    {k : String} (v : IndicatorConfig) (h : k ∈ m.map Prod.fst) :
    (insertAssoc m k v).length = m.length := by
  induction m with
  | nil => simp at h
  | cons kv rest ih =>
      obtain ⟨k', v'⟩ := kv
      by_cases hk : k' = k
      · simp [insertAssoc, hk]
      · simp only [List.map_cons, List.mem_cons] at h
        rcases h with h | h
        · exact absurd h.symm hk
        · simp only [insertAssoc, if_neg hk, List.length_cons]
          rw [ih h]

theorem keys_insertAssoc_sub {m : List (String × IndicatorConfig)}
    {k x : String} {v : IndicatorConfig}
    (h : x ∈ (insertAssoc m k v).map Prod.fst) :
    x = k ∨ x ∈ m.map Prod.fst := by
  induction m with
  | nil => simpa [insertAssoc] using h
  | cons kv rest ih =>
      obtain ⟨k', v'⟩ := kv
      by_cases hk : k' = k
      · simp only [insertAssoc, if_pos hk, List.map_cons, List.mem_cons] at h
        rcases h with h | h
        · exact Or.inl h
        · exact Or.inr (by simp only [List.map_cons, List.mem_cons]; exact Or.inr h)
      · simp only [insertAssoc, if_neg hk, List.map_cons, List.mem_cons] at h
        rcases h with h | h
        · exact Or.inr (by simp [h])
        · rcases ih h with h1 | h1
          · exact Or.inl h1
          · exact Or.inr
              (by simp only [List.map_cons, List.mem_cons]; exact Or.inr h1)

theorem nodup_keys_insertAssoc {m : List (String × IndicatorConfig)}
    {k : String} {v : IndicatorConfig} (h : (m.map Prod.fst).Nodup) :
    ((insertAssoc m k v).map Prod.fst).Nodup := by
  induction m with
  | nil => simp [insertAssoc]
  | cons kv rest ih =>
      obtain ⟨k', v'⟩ := kv
      simp only [List.map_cons, List.nodup_cons] at h
      by_cases hk : k' = k
      · subst hk
        simpa [insertAssoc] using h
      · simp only [insertAssoc, if_neg hk, List.map_cons, List.nodup_cons]
        refine ⟨?_, ih h.2⟩
        intro hx
        rcases keys_insertAssoc_sub hx with h1 | h1
        · exact hk h1
        · exact h.1 h1

theorem filter_insertAssoc_self {m : List (String × IndicatorConfig)}
    {k : String} (v : IndicatorConfig) (h : (m.map Prod.fst).Nodup) :
    ((insertAssoc m k v).filter (fun kv => kv.1 == k)).length = 1 := by
  induction m with
  | nil => simp [insertAssoc]
  | cons kv rest ih =>
      obtain ⟨k', v'⟩ := kv
      simp only [List.map_cons, List.nodup_cons] at h
      by_cases hk : k' = k
      · subst hk
        have hempty : rest.filter (fun kv => kv.1 == k') = [] := by
          rw [List.filter_eq_nil_iff]
          intro a ha
          simp only [beq_iff_eq]
          intro heq
          exact h.1 (List.mem_map.2 ⟨a, ha, heq⟩)
        simp [insertAssoc, List.filter_cons, hempty]
      · simp only [insertAssoc, if_neg hk]
        have hstep :
            ((k', v') :: insertAssoc rest k v).filter (fun kv => kv.1 == k) =
              (insertAssoc rest k v).filter (fun kv => kv.1 == k) := by
          simp [List.filter_cons, hk]
        rw [hstep]
        exact ih h.2

theorem findConfig_insertAssoc_self (m : List (String × IndicatorConfig))
    (k : String) (v : IndicatorConfig) :
    findConfig (insertAssoc m k v) k = some v := by
  induction m with
  | nil => simp [insertAssoc, findConfig]
  | cons kv rest ih =>
      obtain ⟨k', v'⟩ := kv
      by_cases h : k' = k
      · simp [insertAssoc, h, findConfig]
      · simp [insertAssoc, h, findConfig, ih]

end IndicatorGenerator

/-- C1: indicator registration is idempotent.  Registering a configuration
again is a no-op on the whole registry state; two references that
normalize to the same canonical key (lowercased name, uppercased symbol,
significant args in order period, smoothing, fast/slow) share one entry —
registering the second leaves the entry count unchanged, exactly one entry
carries the shared key, and it holds the latest config.  The concrete
conjunct registers `rsi/spy/{period 14, color red}` and then
`RSI/SPY/{period 14}` into a fresh registry and gets the single key
`rsi_SPY_14`. -/
theorem C1_indicator_registration_idempotent :
    (∀ (g g' : IndicatorGenerator) (c : PyVal),
      IndicatorGenerator._process_indicator g c = .ok g' →
      IndicatorGenerator._process_indicator g' c = .ok g') ∧
    (∀ (g g1 g2 : IndicatorGenerator) (c1 c2 : PyVal) (k : String),
      (g.indicators_used.map Prod.fst).Nodup →
      IndicatorGenerator.registeredKey c1 = some k →
      IndicatorGenerator.registeredKey c2 = some k →
      IndicatorGenerator._process_indicator g c1 = .ok g1 →
      IndicatorGenerator._process_indicator g1 c2 = .ok g2 →
      g2.indicators_used.length = g1.indicators_used.length ∧
      (g2.indicators_used.filter (fun kv => kv.1 == k)).length = 1 ∧
      IndicatorGenerator.findConfig g2.indicators_used k =
        some (IndicatorGenerator.storedConfig c2)) ∧
    Except.map (fun g : IndicatorGenerator => g.indicators_used.map Prod.fst)
        ((IndicatorGenerator._process_indicator IndicatorGenerator.empty
            (.dict [("name", .str "rsi"), ("symbol", .str "spy"),
                    ("args", .dict [("period", .int 14), ("color", .str "red")])])).bind
          (fun g1 => IndicatorGenerator._process_indicator g1
            (.dict [("name", .str "RSI"), ("symbol", .str "SPY"),
                    ("args", .dict [("period", .int 14)])]))) =
      .ok ["rsi_SPY_14"] := by
  refine ⟨fun g g' c h => IndicatorGenerator.process_idem h, ?_, by decide⟩
  intro g g1 g2 c1 c2 k hnodup h1 h2 hp1 hp2
  have e1 : g1.indicators_used =
      IndicatorGenerator.insertAssoc g.indicators_used k
        (IndicatorGenerator.storedConfig c1) := by
    rw [IndicatorGenerator.process_of_registeredKey h1 g] at hp1
    injection hp1 with hp1
    rw [← hp1, IndicatorGenerator.addCustom_indicators_used]
  have e2 : g2.indicators_used =
      IndicatorGenerator.insertAssoc g1.indicators_used k
        (IndicatorGenerator.storedConfig c2) := by
    rw [IndicatorGenerator.process_of_registeredKey h2 g1] at hp2
    injection hp2 with hp2
    rw [← hp2, IndicatorGenerator.addCustom_indicators_used]
  refine ⟨?_, ?_, ?_⟩
  · rw [e2]
    refine IndicatorGenerator.length_insertAssoc_of_mem _ ?_
    rw [e1]
    exact IndicatorGenerator.mem_keys_insertAssoc _ _ _
  · rw [e2]
    refine IndicatorGenerator.filter_insertAssoc_self _ ?_
    rw [e1]
    exact IndicatorGenerator.nodup_keys_insertAssoc hnodup
  · rw [e2]
    exact IndicatorGenerator.findConfig_insertAssoc_self _ _ _

/-- C10 counterexample: processing the symbol-less custom metric
`{name: "max-drawdown"}` does NOT leave the registry unchanged — the fresh
registry's empty `custom_methods_needed` set gains `"max-drawdown"`. -/
theorem C10_symbolless_custom_counterexample :
    Except.map (fun g : IndicatorGenerator => g.custom_methods_needed)
        (IndicatorGenerator._process_indicator IndicatorGenerator.empty
          (.dict [("name", .str "max-drawdown")])) = .ok ["max-drawdown"] ∧
    IndicatorGenerator.empty.custom_methods_needed = [] := by
  decide

/-- C10 (amended): a metric whose lowercased name is not implemented
(notably `sma` and `ema`, both in the validator's allowed metric list)
leaves the whole registry state unchanged, so its initialization code is
unchanged too, and `get_indicator_value_code` on such a metric returns an
access expression with the registry untouched; a metric without a symbol
leaves `indicators_used` unchanged (though a symbol-less *custom* metric
still joins `custom_methods_needed`, see the counterexample). -/
theorem C10_unimplemented_and_symbolless_frame :
    (∀ (g : IndicatorGenerator) (kvs : List (String × PyVal)),
      strLower (pyStr (pyGetD kvs "name" (.str "unknown"))) ∉
          IndicatorGenerator.IMPLEMENTED_INDICATORS →
      IndicatorGenerator._process_indicator g (.dict kvs) = .ok g) ∧
    (∀ (g g' : IndicatorGenerator) (kvs : List (String × PyVal)),
      strLower (pyStr (pyGetD kvs "name" (.str "unknown"))) ∉
          IndicatorGenerator.IMPLEMENTED_INDICATORS →
      IndicatorGenerator._process_indicator g (.dict kvs) = .ok g' →
      IndicatorGenerator.generate_initialization_code g' =
        IndicatorGenerator.generate_initialization_code g) ∧
    (∀ (g g' : IndicatorGenerator) (kvs : List (String × PyVal)),
      pyGetD kvs "symbol" .none = .none →
      IndicatorGenerator._process_indicator g (.dict kvs) = .ok g' →
      g'.indicators_used = g.indicators_used) ∧
    (∀ g : IndicatorGenerator,
      IndicatorGenerator.get_indicator_value_code g
        (.dict [("name", .str "sma"), ("symbol", .str "SPY"),
                ("args", .dict [("period", .int 14)])]) =
        .ok (g, "(self.spy_sma_14.current.value)")) ∧
    ("sma" ∈ LogicValidator.allowed_metrics ∧
     "ema" ∈ LogicValidator.allowed_metrics ∧
     "sma" ∉ IndicatorGenerator.IMPLEMENTED_INDICATORS ∧
     "ema" ∉ IndicatorGenerator.IMPLEMENTED_INDICATORS) := by
  have hskip : ∀ (g : IndicatorGenerator) (kvs : List (String × PyVal)),
      strLower (pyStr (pyGetD kvs "name" (.str "unknown"))) ∉
          IndicatorGenerator.IMPLEMENTED_INDICATORS →
      IndicatorGenerator._process_indicator g (.dict kvs) = .ok g := by
    intro g kvs h
    unfold IndicatorGenerator._process_indicator
    dsimp only
    rw [if_neg h]
  refine ⟨hskip, ?_, ?_, ?_, by decide⟩
  · intro g g' kvs h hp
    rw [hskip g kvs h] at hp
    injection hp with hp
    rw [hp]
  · intro g g' kvs hsym hp
    by_cases hname :
        strLower (pyStr (pyGetD kvs "name" (.str "unknown"))) ∈
          IndicatorGenerator.IMPLEMENTED_INDICATORS
    · unfold IndicatorGenerator._process_indicator at hp
      dsimp only at hp
      rw [if_pos hname] at hp
      cases hk : IndicatorGenerator._create_indicator_key
          (strLower (pyStr (pyGetD kvs "name" (.str "unknown"))))
          (pyGetD kvs "symbol" .none) (pyGetD kvs "args" (.dict [])) with
      | error e =>
          rw [hk] at hp
          cases hp
      | ok key =>
          rw [hk, hsym] at hp
          dsimp only at hp
          injection hp with hp
          rw [← hp, IndicatorGenerator.addCustom_indicators_used]
    · rw [hskip g kvs hname] at hp
      injection hp with hp
      rw [hp]
  · intro g
    rfl

/-! ## Helper lemmas about dict access and `Except` -/

theorem except_bind_ok {ε α β : Type} (a : α) (f : α → Except ε β) :
    (Except.ok a : Except ε α) >>= f = f a := rfl

theorem except_bind_error {ε α β : Type} (e : ε) (f : α → Except ε β) :
    (Except.error e : Except ε α) >>= f = Except.error e := rfl

theorem except_pure_eq {ε α : Type} (a : α) :
    (pure a : Except ε α) = Except.ok a := rfl

theorem isEmpty_append {α : Type} (l m : List α) :
    (l ++ m).isEmpty = (l.isEmpty && m.isEmpty) := by
  cases l <;> simp [List.isEmpty]

/-- A dict node without a `children` field is dispatched itself. -/
theorem trace_dict_no_children (allowed : List String)
    {kvs : List (String × PyVal)} (h : dictFind kvs "children" = Option.none) :
    LogicValidator.trace_json_data_recursive allowed (.dict kvs) =
      LogicValidator.check_node_type_and_validate (.dict kvs) allowed := by
  rw [LogicValidator.trace_json_data_recursive.eq_def]
  dsimp only
  split <;> simp_all

/-- A dict node with a list of children dispatches the traversal loop over
those children (and never its own fields). -/
theorem trace_dict_of_children_list (allowed : List String)
    {kvs : List (String × PyVal)} {xs : List PyVal}
    (h : dictFind kvs "children" = some (.list xs)) :
    LogicValidator.trace_json_data_recursive allowed (.dict kvs) =
      LogicValidator.traceChildrenList allowed xs := by
  rw [LogicValidator.trace_json_data_recursive.eq_def]
  dsimp only
  split <;> simp_all

theorem traceChildrenList_nil (allowed : List String) :
    LogicValidator.traceChildrenList allowed [] = .ok () := by
  rw [LogicValidator.traceChildrenList.eq_def]

theorem traceChildrenList_cons_dict (allowed : List String)
    (ikvs : List (String × PyVal)) (rest : List PyVal) :
    LogicValidator.traceChildrenList allowed (.dict ikvs :: rest) =
      (LogicValidator.check_node_type_and_validate (.dict ikvs) allowed >>=
        fun _ => LogicValidator.trace_json_data_recursive allowed (.dict ikvs) >>=
          fun _ => LogicValidator.traceChildrenList allowed rest) := by
  rw [LogicValidator.traceChildrenList.eq_def]

theorem any_eq_true_of_dictFind {kvs : List (String × PyVal)} {k : String}
    {v : PyVal} (h : dictFind kvs k = some v) :
    kvs.any (fun kv => kv.1 = k) = true := by
  induction kvs with
  | nil => simp [dictFind] at h
  | cons kv rest ih =>
      obtain ⟨k', v'⟩ := kv
      by_cases hk : k' = k
      · simp [hk]
      · simp only [dictFind, if_neg hk] at h
        simp [hk, ih h]

theorem pyGetD_of_dictFind {kvs : List (String × PyVal)} {k : String}
    {v d : PyVal} (h : dictFind kvs k = some v) : pyGetD kvs k d = v := by
  simp [pyGetD, h]

/-- C2 (code-bug evidence): contrary to the never-raises contract, a
non-dict node makes `validate_filter_node` raise `AttributeError` (the
source's `return False. errors` is attribute access on `False`) and makes
`validate_weight_node` raise `AttributeError` (its `node.get("type")` runs
before the dict check); a group node with a non-dict child also raises
(`child.get("type")` runs on the child unconditionally). -/
theorem C2_validators_raise_on_malformed_input :
    LogicValidator.validate_filter_node (.int 42) = .error .attributeError ∧
    LogicValidator.validate_weight_node (.int 42) = .error .attributeError ∧
    LogicValidator.validate_group_node
        (.dict [("type", .str "group"), ("children", .list [.int 5])]) =
      .error .attributeError := by
  exact ⟨rfl, rfl, by decide⟩

/-- Two invalid order nodes, for the C3 counterexample: the first
references TQQQ, the second BSV, with `["SPY"]` the allowed tickers. -/
def c3bad1 : List (String × PyVal) :=
  [("type", .str "order"), ("side", .str "long"),
   ("weights", .dict [("TQQQ", .int 1)])]

/-- Second invalid order node of the C3 counterexample. -/
def c3bad2 : List (String × PyVal) :=
  [("type", .str "order"), ("side", .str "long"),
   ("weights", .dict [("BSV", .int 1)])]

/-- Root of the C3 counterexample tree. -/
def c3root : PyVal := .dict [("children", .list [.dict c3bad1, .dict c3bad2])]

/-- C3 counterexample: a tree whose children include two invalid order
nodes is NOT validated in full — the traversal ends at the first invalid
node via `sys.exit`, surfacing only that node's errors; the second node's
error is absent. -/
theorem C3_first_invalid_stops_traversal_counterexample :
    LogicValidator.validate_logic c3root ["SPY"] =
      .error (.exit ["For order 'None', Symbols not allowed: TQQQ"]) ∧
    "For order 'None', Symbols not allowed: BSV" ∉
      ["For order 'None', Symbols not allowed: TQQQ"] := by
  have hbad1 : LogicValidator.check_node_type_and_validate (.dict c3bad1)
      ["SPY"] =
      .error (.exit ["For order 'None', Symbols not allowed: TQQQ"]) := by
    decide
  constructor
  · unfold LogicValidator.validate_logic c3root
    rw [trace_dict_of_children_list ["SPY"]
        (show dictFind [("children", .list [.dict c3bad1, .dict c3bad2])]
            "children" = some (.list [.dict c3bad1, .dict c3bad2]) from rfl),
      traceChildrenList_cons_dict, hbad1, except_bind_error]
  · decide

/-- C3 (amended): errors are accumulated within one node's validation and
the node's full error list is surfaced (printed) when the traversal stops,
but the whole-tree traversal is short-circuited: the first invalid child
aborts the walk via `sys.exit`, before any later sibling is examined.  The
concrete conjunct shows one order node yielding two accumulated errors. -/
theorem C3_per_node_accumulation_traversal_exits :
    (∀ (allowed : List String) (ikvs : List (String × PyVal))
       (rest : List PyVal) (e : LogicValidator.Abort),
      LogicValidator.check_node_type_and_validate (.dict ikvs) allowed =
        .error e →
      LogicValidator.traceChildrenList allowed (.dict ikvs :: rest) =
        .error e) ∧
    (∀ errs : List String,
      LogicValidator.handle_validation_errors false errs =
        .error (.exit errs)) ∧
    LogicValidator.validate_order_node
        (.dict [("type", .str "order"), ("side", .str "buy"),
                ("weights", .dict [("TQQQ", .int 1)])]) ["SPY"] =
      .ok (false,
        ["For order 'None', order.side must be 'long' or 'short'",
         "For order 'None', Symbols not allowed: TQQQ"]) := by
  refine ⟨?_, fun errs => rfl, by decide⟩
  intro allowed ikvs rest e h
  rw [traceChildrenList_cons_dict, h, except_bind_error]

/-- C4 counterexample: an order node with a referenced symbol lacking a
weight does not always return invalid — with `weights = {"SPY": "abc"}`
and universe `["SPY", "TQQQ"]`, the symbol TQQQ has no weight, yet
`validate_order_node` raises `UnboundLocalError` (the failed `float(v)` is
caught, but the `w < 0` test then reads the never-assigned local `w`)
instead of returning `(False, errors)`. -/
theorem C4_missing_weight_raises_counterexample :
    LogicValidator.validate_order_node
        (.dict [("type", .str "order"), ("side", .str "long"),
                ("universe", .list [.str "SPY", .str "TQQQ"]),
                ("weights", .dict [("SPY", .str "abc")])])
        ["SPY", "TQQQ", "SQQQ", "BSV"] =
      .error .unboundLocalError ∧
    LogicValidator.orderSymbols
        [("type", .str "order"), ("side", .str "long"),
         ("universe", .list [.str "SPY", .str "TQQQ"]),
         ("weights", .dict [("SPY", .str "abc")])]
        [("SPY", .str "abc")] = .ok ["SPY", "TQQQ"] ∧
    LogicValidator.orderMissingWeights ["SPY", "TQQQ"]
        [("SPY", .str "abc")] = ["TQQQ"] := by
  decide

/-- C4 (amended): whenever `validate_order_node` returns a result on an
order-typed dict (rather than raising), a referenced symbol without an
explicit weight forces the invalid verdict, and the error list carries the
`Missing weight(s) for:` message naming the sorted missing symbols — for
any allocation mode, since the check is unconditional.  The concrete
conjunct is the specification's example (universe [SPY, TQQQ], weight only
for SPY at 0.5). -/
theorem C4_order_missing_weight_invalid :
    (∀ (kvs : List (String × PyVal)) (allowed : List String)
       (wkvs : List (String × PyVal)) (symbols : List String)
       (v : Bool) (errs : List String),
      pyEqStr (pyGetD kvs "type" .none) "order" = true →
      LogicValidator.orderWeightsVal kvs = .dict wkvs →
      LogicValidator.orderSymbols kvs wkvs = .ok symbols →
      LogicValidator.orderMissingWeights symbols wkvs ≠ [] →
      LogicValidator.validate_order_node (.dict kvs) allowed = .ok (v, errs) →
      v = false ∧
        LogicValidator.missingWeightsMsg (LogicValidator.nodeIdStr kvs)
          (LogicValidator.orderMissingWeights symbols wkvs) ∈ errs) ∧
    LogicValidator.validate_order_node
        (.dict [("type", .str "order"), ("side", .str "long"),
                ("universe", .list [.str "SPY", .str "TQQQ"]),
                ("weights", .dict [("SPY", .float (Rat.mk' 1 2))])])
        ["SPY", "TQQQ"] =
      .ok (false, ["For order 'None', Missing weight(s) for: TQQQ"]) := by
  constructor
  · intro kvs allowed wkvs symbols v errs htype hw hsym hmiss hval
    have hie : (LogicValidator.orderMissingWeights symbols wkvs).isEmpty = false := by
      cases hmw : LogicValidator.orderMissingWeights symbols wkvs with
      | nil => exact absurd hmw hmiss
      | cons a l => rfl
    unfold LogicValidator.validate_order_node at hval
    dsimp only at hval
    rw [if_neg (by simp [htype])] at hval
    rw [hw] at hval
    dsimp only at hval
    rw [hsym, except_bind_ok] at hval
    cases hloop : LogicValidator.weightsLoop (LogicValidator.nodeIdStr kvs)
        symbols Option.none wkvs with
    | error e =>
        rw [hloop, except_bind_error] at hval
        cases hval
    | ok loopE =>
        rw [hloop, except_bind_ok, except_pure_eq] at hval
        injection hval with hval
        rw [Prod.mk.injEq] at hval
        obtain ⟨hv, he⟩ := hval
        subst hv
        subst he
        refine ⟨?_, ?_⟩ <;>
          simp [hie, isEmpty_append, List.mem_append,
            LogicValidator.missingWeightsMsg]
  · decide

/-! ## Segment-membership lemmas for the condition validator -/

theorem mem_condition_of_mem_crosses {kvs : List (String × PyVal)}
    {am asy : Option (List String)} {rsm ve er eml erc : Bool} {el : String}
    {msg : String}
    (h : msg ∈ LogicValidator.conditionCrossesErrs kvs
      (LogicValidator.normMetricsOpt am) (LogicValidator.normSymbolsOpt asy) rsm) :
    msg ∈ (LogicValidator.validate_condition_node (.dict kvs) am asy rsm ve er
      el eml erc).2 := by
  unfold LogicValidator.validate_condition_node LogicValidator.conditionErrs
  dsimp only
  simp only [List.mem_append]
  tauto

theorem mem_condition_of_mem_bothlit {kvs : List (String × PyVal)}
    {am asy : Option (List String)} {rsm ve er eml erc : Bool} {el : String}
    {msg : String}
    (h : msg ∈ LogicValidator.conditionBothLitErrs kvs
      (LogicValidator.normMetricsOpt am) (LogicValidator.normSymbolsOpt asy) rsm) :
    msg ∈ (LogicValidator.validate_condition_node (.dict kvs) am asy rsm ve er
      el eml erc).2 := by
  unfold LogicValidator.validate_condition_node LogicValidator.conditionErrs
  dsimp only
  simp only [List.mem_append]
  tauto

theorem mem_condition_of_mem_lhs {kvs : List (String × PyVal)}
    {am asy : Option (List String)} {rsm ve er eml erc : Bool} {el : String}
    {msg : String}
    (h : msg ∈ (LogicValidator.conditionLhsParsed kvs
      (LogicValidator.normMetricsOpt am) (LogicValidator.normSymbolsOpt asy) rsm).2) :
    msg ∈ (LogicValidator.validate_condition_node (.dict kvs) am asy rsm ve er
      el eml erc).2 := by
  unfold LogicValidator.validate_condition_node LogicValidator.conditionErrs
  dsimp only
  simp only [List.mem_append]
  tauto

theorem mem_condition_of_mem_else {kvs : List (String × PyVal)}
    {am asy : Option (List String)} {rsm ve er eml erc : Bool} {el : String}
    {msg : String}
    (h : msg ∈ LogicValidator.conditionElseErrs kvs ve er el eml erc) :
    msg ∈ (LogicValidator.validate_condition_node (.dict kvs) am asy rsm ve er
      el eml erc).2 := by
  unfold LogicValidator.validate_condition_node LogicValidator.conditionErrs
  dsimp only
  simp only [List.mem_append]
  tauto

/-- C5: operator/operand rules.  With `crosses_above`/`crosses_below` as
the operator, any operand that does not parse as a metric forces the
crosses error into the error list; with a plain comparison operator, two
literal operands force the at-least-one-metric error.  The concrete
conjunct is the specification's example (`crosses_above` with a numeric
rhs), which is invalid. -/
theorem C5_condition_operator_operand_rules :
    (∀ (kvs : List (String × PyVal)) (am asy : Option (List String))
       (rsm ve er eml erc : Bool) (el op : String),
      dictFind kvs "operator" = some (.str op) →
      op ∈ ["crosses_above", "crosses_below"] →
      ¬ ((LogicValidator.conditionLhsParsed kvs (LogicValidator.normMetricsOpt am)
            (LogicValidator.normSymbolsOpt asy) rsm).1 = .metric ∧
         (LogicValidator.conditionRhsParsed kvs (LogicValidator.normMetricsOpt am)
            (LogicValidator.normSymbolsOpt asy) rsm).1 = .metric) →
      ("For condition '" ++ LogicValidator.nodeIdStr kvs ++ "'," ++ op ++
          " requires both lhs and rhs to be metrics (no literals)") ∈
        (LogicValidator.validate_condition_node (.dict kvs) am asy rsm ve er el
          eml erc).2) ∧
    (∀ (kvs : List (String × PyVal)) (am asy : Option (List String))
       (rsm ve er eml erc : Bool) (el op : String),
      dictFind kvs "operator" = some (.str op) →
      op ∈ ["gt", "gte", "lt", "lte", "eq", "neq"] →
      (LogicValidator.conditionLhsParsed kvs (LogicValidator.normMetricsOpt am)
        (LogicValidator.normSymbolsOpt asy) rsm).1 = .literal →
      (LogicValidator.conditionRhsParsed kvs (LogicValidator.normMetricsOpt am)
        (LogicValidator.normSymbolsOpt asy) rsm).1 = .literal →
      ("For condition '" ++ LogicValidator.nodeIdStr kvs ++ "', " ++ op ++
          " requires at least one operand to be a metric") ∈
        (LogicValidator.validate_condition_node (.dict kvs) am asy rsm ve er el
          eml erc).2) ∧
    ((LogicValidator.validate_condition_node
        (.dict [("type", .str "condition"), ("operator", .str "crosses_above"),
                ("lhs", .dict [("name", .str "current-price"),
                               ("symbol", .str "SPY")]),
                ("rhs", .float 100)])).1 = false ∧
      "For condition 'None',crosses_above requires both lhs and rhs to be metrics (no literals)" ∈
        (LogicValidator.validate_condition_node
          (.dict [("type", .str "condition"), ("operator", .str "crosses_above"),
                  ("lhs", .dict [("name", .str "current-price"),
                                 ("symbol", .str "SPY")]),
                  ("rhs", .float 100)])).2) := by
  refine ⟨?_, ?_, by decide⟩
  · intro kvs am asy rsm ve er eml erc el op hop hin hk
    have hOpEff : LogicValidator.conditionOpEff kvs = op := by
      unfold LogicValidator.conditionOpEff
      rw [pyGetD_of_dictFind hop]
    have hflag : LogicValidator.conditionFlag kvs = true := by
      unfold LogicValidator.conditionFlag LogicValidator.conditionHasOp
      rw [any_eq_true_of_dictFind hop]
      simp
    apply mem_condition_of_mem_crosses
    unfold LogicValidator.conditionCrossesErrs
    rw [if_pos ⟨hflag, by rw [hOpEff]; exact hin, hk⟩, hOpEff]
    exact List.mem_singleton_self _
  · intro kvs am asy rsm ve er eml erc el op hop hin hl hr
    have hOpEff : LogicValidator.conditionOpEff kvs = op := by
      unfold LogicValidator.conditionOpEff
      rw [pyGetD_of_dictFind hop]
    have hflag : LogicValidator.conditionFlag kvs = true := by
      unfold LogicValidator.conditionFlag LogicValidator.conditionHasOp
      rw [any_eq_true_of_dictFind hop]
      simp
    apply mem_condition_of_mem_bothlit
    unfold LogicValidator.conditionBothLitErrs
    rw [if_pos ⟨hflag, by rw [hOpEff]; exact hin, hl, hr⟩, hOpEff]
    exact List.mem_singleton_self _

theorem parse_operand_bool (nid : String) (ams asy : Option (List String))
    (rsm b : Bool) (side : String) :
    LogicValidator._parse_operand nid ams asy rsm (.bool b) side =
      (.invalid,
       ["For condition '" ++ nid ++ "', " ++ side ++
        ": operand must be a metric object or a numeric literal"]) := rfl

/-- C8 counterexample: a boolean-literal lhs and a string-literal rhs are
each rejected with the operand-type error (`_is_number` excludes `bool`,
and only dicts carrying `name` count as metrics), so the validator does
not admit boolean or string literals as operands. -/
theorem C8_bool_string_literal_rejected_counterexample :
    ((LogicValidator.validate_condition_node
        (.dict [("type", .str "condition"), ("operator", .str "gt"),
                ("lhs", .bool true),
                ("rhs", .dict [("name", .str "current-price"),
                               ("symbol", .str "SPY")])])).1 = false ∧
      "For condition 'None', lhs: operand must be a metric object or a numeric literal" ∈
        (LogicValidator.validate_condition_node
          (.dict [("type", .str "condition"), ("operator", .str "gt"),
                  ("lhs", .bool true),
                  ("rhs", .dict [("name", .str "current-price"),
                                 ("symbol", .str "SPY")])])).2) ∧
    "For condition 'None', rhs: operand must be a metric object or a numeric literal" ∈
      (LogicValidator.validate_condition_node
        (.dict [("type", .str "condition"), ("operator", .str "gt"),
                ("lhs", .dict [("name", .str "current-price"),
                               ("symbol", .str "SPY")]),
                ("rhs", .str "high")])).2 := by
  decide

/-- C8 (amended): `_parse_operand` admits exactly two operand shapes — a
dict carrying `name` (metric) and a non-bool numeric literal.  A boolean
or string literal is rejected with the operand-type error for its side,
and that error reaches the condition validator's error list whenever such
a value sits in `lhs`. -/
theorem C8_operands_numeric_or_metric_only :
    (∀ (nid : String) (ams asy : Option (List String)) (rsm b : Bool)
       (side : String),
      LogicValidator._parse_operand nid ams asy rsm (.bool b) side =
        (.invalid,
         ["For condition '" ++ nid ++ "', " ++ side ++
          ": operand must be a metric object or a numeric literal"])) ∧
    (∀ (nid : String) (ams asy : Option (List String)) (rsm : Bool)
       (s side : String),
      LogicValidator._parse_operand nid ams asy rsm (.str s) side =
        (.invalid,
         ["For condition '" ++ nid ++ "', " ++ side ++
          ": operand must be a metric object or a numeric literal"])) ∧
    (∀ (nid : String) (ams asy : Option (List String)) (rsm : Bool) (n : Int)
       (side : String),
      LogicValidator._parse_operand nid ams asy rsm (.int n) side =
        (.literal, [])) ∧
    (∀ (nid : String) (ams asy : Option (List String)) (rsm : Bool) (q : Rat)
       (side : String),
      LogicValidator._parse_operand nid ams asy rsm (.float q) side =
        (.literal, [])) ∧
    (∀ (kvs : List (String × PyVal)) (am asy : Option (List String))
       (rsm ve er eml erc b : Bool) (el : String),
      dictFind kvs "lhs" = some (.bool b) →
      ("For condition '" ++ LogicValidator.nodeIdStr kvs ++
          "', lhs: operand must be a metric object or a numeric literal") ∈
        (LogicValidator.validate_condition_node (.dict kvs) am asy rsm ve er el
          eml erc).2) := by
  refine ⟨fun _ _ _ _ _ _ => rfl, fun _ _ _ _ _ _ => rfl,
    fun _ _ _ _ _ _ => rfl, fun _ _ _ _ _ _ => rfl, ?_⟩
  intro kvs am asy rsm ve er eml erc b el hlhs
  apply mem_condition_of_mem_lhs
  unfold LogicValidator.conditionLhsParsed
  rw [if_pos (any_eq_true_of_dictFind hlhs), pyGetD_of_dictFind hlhs,
    parse_operand_bool]
  simp only [List.mem_singleton, String.append_assoc]
  rfl

/-- The then- and else-groups of the C6 concrete condition. -/
def c6then : PyVal :=
  .dict [("type", .str "group"), ("description", .str "then"),
         ("children", .list [.dict [("type", .str "order")]])]

/-- Else-group whose description matches the default else-label. -/
def c6else : PyVal :=
  .dict [("type", .str "group"), ("description", .str "Else branch"),
         ("children", .list [.dict [("type", .str "order")]])]

/-- A fully valid condition with the else-group as final child. -/
def c6good : PyVal :=
  .dict [("type", .str "condition"), ("operator", .str "gt"),
         ("lhs", .dict [("name", .str "current-price"), ("symbol", .str "SPY")]),
         ("rhs", .float 100),
         ("children", .list [c6then, c6else])]

/-- The same condition with the children reversed (else first). -/
def c6rev : PyVal :=
  .dict [("type", .str "condition"), ("operator", .str "gt"),
         ("lhs", .dict [("name", .str "current-price"), ("symbol", .str "SPY")]),
         ("rhs", .float 100),
         ("children", .list [c6else, c6then])]

/-- C6: else-branch placement.  More than one child matching the
else-label is an error; under `else_must_be_last` an else-group that is
not the final child produces the must-be-last error; the concrete
condition with children `[then, else]` is valid under the defaults while
the reversed order is invalid with exactly that error. -/
theorem C6_else_branch_placement :
    (∀ (kvs : List (String × PyVal)) (am asy : Option (List String))
       (rsm er erc : Bool) (el : String),
      (LogicValidator.conditionElseEntries kvs el).length > 1 →
      ("For condition '" ++ LogicValidator.conditionNidA kvs ++
          "',condition has multiple Else branch groups; only one is allowed") ∈
        (LogicValidator.validate_condition_node (.dict kvs) am asy rsm true er
          el true erc).2) ∧
    (∀ (kvs : List (String × PyVal)) (am asy : Option (List String))
       (rsm er erc : Bool) (el : String) (idx : Nat) (en : PyVal),
      (LogicValidator.conditionElseEntries kvs el).head? = some (idx, en) →
      idx ≠ (LogicValidator.conditionChildren kvs).length - 1 →
      ("For condition '" ++ LogicValidator.conditionNidA kvs ++
          "',Else branch must be the last direct child of the condition") ∈
        (LogicValidator.validate_condition_node (.dict kvs) am asy rsm true er
          el true erc).2) ∧
    LogicValidator.validate_condition_node c6good = (true, []) ∧
    ((LogicValidator.validate_condition_node c6rev).1 = false ∧
      "For condition 'None',Else branch must be the last direct child of the condition" ∈
        (LogicValidator.validate_condition_node c6rev).2) := by
  refine ⟨?_, ?_, by decide, by decide⟩
  · intro kvs am asy rsm er erc el h
    apply mem_condition_of_mem_else
    unfold LogicValidator.conditionElseErrs
    rw [if_pos rfl]
    dsimp only
    simp
    tauto
  · intro kvs am asy rsm er erc el idx en hhead hlast
    apply mem_condition_of_mem_else
    unfold LogicValidator.conditionElseErrs
    rw [if_pos rfl]
    dsimp only
    rw [hhead]
    simp
    tauto

/-- The valid order child of the C9 counterexample root. -/
def c9good : List (String × PyVal) :=
  [("type", .str "order"), ("side", .str "long"),
   ("weights", .dict [("SPY", .int 1)])]

/-- A root with an unrecognized type but a `children` field. -/
def c9root : PyVal :=
  .dict [("type", .str "bogus"), ("children", .list [.dict c9good])]

/-- C9 counterexample: the traversal accepts a tree whose ROOT has the
unrecognized type `bogus`, because a node carrying a `children` field is
never itself dispatched; had the root been dispatched, it would have been
rejected with `Unknown node type: bogus`. -/
theorem C9_root_not_validated_counterexample :
    LogicValidator.validate_logic c9root ["TQQQ", "SQQQ", "BSV", "SPY"] =
      .ok () ∧
    LogicValidator.check_node_type_and_validate c9root
        ["TQQQ", "SQQQ", "BSV", "SPY"] =
      .error (.exit ["Unknown node type: bogus"]) := by
  have hgood : LogicValidator.check_node_type_and_validate (.dict c9good)
      ["TQQQ", "SQQQ", "BSV", "SPY"] = .ok () := by decide
  constructor
  · unfold LogicValidator.validate_logic c9root
    rw [trace_dict_of_children_list ["TQQQ", "SQQQ", "BSV", "SPY"]
        (show dictFind [("type", .str "bogus"),
            ("children", .list [.dict c9good])] "children" =
          some (.list [.dict c9good]) from rfl),
      traceChildrenList_cons_dict, hgood, except_bind_ok,
      trace_dict_no_children ["TQQQ", "SQQQ", "BSV", "SPY"]
        (show dictFind c9good "children" = Option.none from rfl),
      hgood, except_bind_ok, traceChildrenList_nil]
  · decide

/-- Any dict node whose `type` is none of the five dispatched kinds is
reported with `Unknown node type:` and ends the run. -/
theorem check_unknown_type (allowed : List String)
    {kvs : List (String × PyVal)}
    (h : ¬ (pyEqStr (pyGetD kvs "type" .none) "condition" = true ∨
            pyEqStr (pyGetD kvs "type" .none) "group" = true ∨
            pyEqStr (pyGetD kvs "type" .none) "order" = true ∨
            pyEqStr (pyGetD kvs "type" .none) "filter" = true ∨
            pyEqStr (pyGetD kvs "type" .none) "weight" = true)) :
    LogicValidator.check_node_type_and_validate (.dict kvs) allowed =
      .error (.exit ["Unknown node type: " ++ pyStr (pyGetD kvs "type" .none)]) := by
  push_neg at h
  obtain ⟨h1, h2, h3, h4, h5⟩ := h
  unfold LogicValidator.check_node_type_and_validate
  dsimp only
  rw [if_neg h1, if_neg h2, if_neg h3, if_neg h4, if_neg h5]
  rfl

/-- C9 (amended): a dict root WITHOUT a `children` field is dispatched and
validated itself; any dict node that is dispatched and has an
unrecognized type is reported (`Unknown node type:`, printed and the run
exits) rather than skipped — in particular an unrecognized-type dict at
the head of a children list aborts the traversal with that error.  A root
WITH a `children` field, however, is never itself dispatched (see the
counterexample). -/
theorem C9_traversal_coverage_amended :
    (∀ (allowed : List String) (kvs : List (String × PyVal)),
      dictFind kvs "children" = Option.none →
      LogicValidator.trace_json_data_recursive allowed (.dict kvs) =
        LogicValidator.check_node_type_and_validate (.dict kvs) allowed) ∧
    (∀ (allowed : List String) (kvs : List (String × PyVal)),
      ¬ (pyEqStr (pyGetD kvs "type" .none) "condition" = true ∨
         pyEqStr (pyGetD kvs "type" .none) "group" = true ∨
         pyEqStr (pyGetD kvs "type" .none) "order" = true ∨
         pyEqStr (pyGetD kvs "type" .none) "filter" = true ∨
         pyEqStr (pyGetD kvs "type" .none) "weight" = true) →
      LogicValidator.check_node_type_and_validate (.dict kvs) allowed =
        .error (.exit ["Unknown node type: " ++
          pyStr (pyGetD kvs "type" .none)])) ∧
    (∀ (allowed : List String) (kvs ikvs : List (String × PyVal))
       (rest : List PyVal),
      dictFind kvs "children" = some (.list (.dict ikvs :: rest)) →
      ¬ (pyEqStr (pyGetD ikvs "type" .none) "condition" = true ∨
         pyEqStr (pyGetD ikvs "type" .none) "group" = true ∨
         pyEqStr (pyGetD ikvs "type" .none) "order" = true ∨
         pyEqStr (pyGetD ikvs "type" .none) "filter" = true ∨
         pyEqStr (pyGetD ikvs "type" .none) "weight" = true) →
      LogicValidator.trace_json_data_recursive allowed (.dict kvs) =
        .error (.exit ["Unknown node type: " ++
          pyStr (pyGetD ikvs "type" .none)])) := by
  refine ⟨fun allowed kvs h => trace_dict_no_children allowed h,
    fun allowed kvs h => check_unknown_type allowed h, ?_⟩
  intro allowed kvs ikvs rest hch ht
  rw [trace_dict_of_children_list allowed hch, traceChildrenList_cons_dict,
    check_unknown_type allowed ht, except_bind_error]

end StrategyCompiler
